import Mathlib

/-!
# Worker: an OpenAI-style image API in front of the Workers AI provider

A shallow embedding of `src/worker.js` and the properties of its request
translation: validation, parameter normalisation, the per-image dispatch
loop and the shaping of the results.

## The model of JavaScript values

* `JsVal` holds the values that reach the handler out of `request.json()`:
  `undefined` (what reading a missing property gives), `null`, booleans,
  numbers, strings, arrays and plain objects.
* A Number is modelled by an integer (`JsNum.int`) or `NaN` (`JsNum.nan`).
  Sums and parsed numerals are rounded to the nearest Number
  (`roundToDouble`), which changes nothing below `2 ^ 53`, and a Number prints
  as `Number::toString` prescribes (`numberToString`): the shortest decimal
  that denotes it, in exponent form from `1e21` on.  Fractional request
  numbers are outside the model.  The two fractional parameters `strength`
  and `guidance` live in `JsFloat`, as exact decimals between the least
  positive and the greatest finite Number.
* A raised exception is the `Except.error` carrying its message.
-/

namespace Worker

/-! ## Values -/

/-- A Number of the integer fragment: `NaN` or an integer. -/
inductive JsNum where
  | nan
  | int (i : Int)
  deriving Repr, DecidableEq, Inhabited

/-- A JavaScript value as the handler sees it. -/
inductive JsVal where
  | undefined
  | null
  | bool (b : Bool)
  | num (n : JsNum)
  | str (s : String)
  | arr (items : List JsVal)
  | obj (fields : List (String × JsVal))
  deriving Repr, Inhabited

/-- A Number produced by `parseFloat`: `NaN`, the finite decimal
`mantissa * 10 ^ exponent`, or an infinity. -/
inductive JsFloat where
  | nan
  | fin (mantissa : Int) (exponent : Int)
  | inf (negative : Bool)
  deriving Repr, DecidableEq, Inhabited

/-- Own-property lookup in the field list of an object (first binding of the key). -/
def lookupField (key : String) : List (String × JsVal) → JsVal
  | [] => .undefined
  | (k, v) :: rest => if k = key then v else lookupField key rest

/-- Whether the field list binds `key`. -/
def hasField (key : String) : List (String × JsVal) → Bool
  | [] => false
  | (k, _) :: rest => if k = key then true else hasField key rest

/-- Property read `value.key` for the property names the handler reads
(`prompt`, `model`, `n`, ...): none of them exists on a prototype, so the read
gives the own property of an object and `undefined` on any other value, and
raises a TypeError on `null` and `undefined`. -/
def getProp (value : JsVal) (key : String) : Except String JsVal :=
  match value with
  | .obj fields => .ok (lookupField key fields)
  | .null => .error ("Cannot read properties of null (reading '" ++ key ++ "')")
  | .undefined => .error ("Cannot read properties of undefined (reading '" ++ key ++ "')")
  | _ => .ok .undefined

/-- ToBoolean on request values. -/
def JsVal.truthy : JsVal → Bool
  | .undefined => false
  | .null => false
  | .bool b => b
  | .num .nan => false
  | .num (.int i) => i != 0
  | .str s => s != ""
  | .arr _ => true
  | .obj _ => true

/-- ToBoolean on a Number: `NaN` and `0` are falsy. -/
def JsNum.truthy : JsNum → Bool
  | .nan => false
  | .int i => i != 0

/-- ToBoolean on a fractional Number: `NaN` and `0` are falsy. -/
def JsFloat.truthy : JsFloat → Bool
  | .nan => false
  | .fin mantissa _ => mantissa != 0
  | .inf _ => true

/-- The expression `a || b` on request values. -/
def JsVal.orElse (a b : JsVal) : JsVal := if a.truthy then a else b

/-- The expression `a || b` on Numbers. -/
def JsNum.orElse (a b : JsNum) : JsNum := if a.truthy then a else b

/-- The expression `a || b` on fractional Numbers. -/
def JsFloat.orElse (a b : JsFloat) : JsFloat := if a.truthy then a else b

/-- The Number nearest to an integer.  Integers of magnitude below `2 ^ 53` are
Numbers themselves; a larger one keeps its 53 leading bits, rounded to
nearest with ties to the even neighbour (magnitudes from `2 ^ 1024` on, which
give an infinity, are outside the model). -/
def roundToDouble (z : Int) : Int :=
  let m := z.natAbs
  if m < 2 ^ 53 then z
  else
    let dropped := Nat.log2 m - 52
    let kept := m / 2 ^ dropped
    let rest := m % 2 ^ dropped
    let half := 2 ^ (dropped - 1)
    let rounded := if rest > half || (rest == half && kept % 2 == 1) then kept + 1 else kept
    if z < 0 then -((rounded * 2 ^ dropped : Nat) : Int) else ((rounded * 2 ^ dropped : Nat) : Int)

/-- The number of decimal digits of a natural number. -/
def decimalLength (m : Nat) : Nat := (Nat.toDigits 10 m).length

/-- The search of `Number::toString` for the shortest decimal that denotes the
Number `x` of `len` digits: with `kept` significant digits, the multiples of
`10 ^ (len - kept)` just below and just above `x` are tried; one that rounds
to `x` is taken, the closer of the two when both do (the even significand on
a tie), and otherwise one more digit is kept. -/
def shortestFrom (x len : Nat) : Nat → Nat → Nat
  | 0, _ => x
  | rounds + 1, kept =>
    let step := 10 ^ (len - kept)
    let below := x / step * step
    let above := below + step
    let belowFits := roundToDouble (below : Int) == (x : Int)
    let aboveFits := roundToDouble (above : Int) == (x : Int)
    if belowFits && aboveFits then
      if x - below < above - x then below
      else if above - x < x - below then above
      else if x / step % 2 == 0 then below else above
    else if belowFits then below
    else if aboveFits then above
    else shortestFrom x len rounds (kept + 1)

/-- The shortest decimal that denotes the Number `x`, as a natural number: its
significant digits followed by zeros. -/
def shortestDecimal (x : Nat) : Nat :=
  shortestFrom x (decimalLength x) (decimalLength x) 1

/-- A natural number without its trailing zeros (at most `rounds` of them). -/
def dropZeros : Nat → Nat → Nat
  | 0, m => m
  | rounds + 1, m => if m != 0 && m % 10 == 0 then dropZeros rounds (m / 10) else m

/-- ToString of an integer-valued Number (`Number::toString`).  Below `2 ^ 53`
every integer is a Number and prints as its decimal numeral.  From there on
the shortest decimal that denotes the Number is printed: as a numeral when it
has at most 21 digits, and in exponent form `d.ddde+n` beyond. -/
def numberToString (i : Int) : String :=
  if i.natAbs < 2 ^ 53 then toString i
  else
    let shortest := shortestDecimal i.natAbs
    let sign := if i < 0 then "-" else ""
    if decimalLength shortest ≤ 21 then sign ++ toString shortest
    else
      match Nat.toDigits 10 (dropZeros (decimalLength shortest) shortest) with
      | [] => sign ++ toString shortest
      | [digit] => sign ++ String.mk [digit] ++ "e+" ++ toString (decimalLength shortest - 1)
      | digit :: more =>
        sign ++ String.mk (digit :: '.' :: more) ++ "e+" ++ toString (decimalLength shortest - 1)

/-- Joins strings with a separator, as `Array.prototype.join` does. -/
def joinWith (sep : String) : List String → String
  | [] => ""
  | [s] => s
  | s :: rest => s ++ sep ++ joinWith sep rest

mutual
/-- ToString.  Arrays join their elements with a comma (`null` and `undefined`
elements print empty); a plain object prints `[object Object]`, and ToString
raises a TypeError on an object that has an own `toString` property, since a
parsed value is never callable and `Object.prototype.valueOf` returns the
object itself. -/
def jsToString : JsVal → Except String String
  | .undefined => .ok "undefined"
  | .null => .ok "null"
  | .bool b => .ok (if b then "true" else "false")
  | .num .nan => .ok "NaN"
  | .num (.int i) => .ok (numberToString i)
  | .str s => .ok s
  | .arr items => (jsToStrings items).map (joinWith ",")
  | .obj fields =>
    if hasField "toString" fields then .error "Cannot convert object to primitive value"
    else .ok "[object Object]"
/-- ToString of the elements of an array, for `join`. -/
def jsToStrings : List JsVal → Except String (List String)
  | [] => .ok []
  | .undefined :: rest => (jsToStrings rest).map (fun ss => "" :: ss)
  | .null :: rest => (jsToStrings rest).map (fun ss => "" :: ss)
  | v :: rest =>
    match jsToString v with
    | .error e => .error e
    | .ok s => (jsToStrings rest).map (fun ss => s :: ss)
end

/-! ## parseInt and parseFloat -/

/-- The white space that `parseInt` and `parseFloat` skip in front of a numeral. -/
def isJsWhitespace (c : Char) : Bool :=
  [9, 10, 11, 12, 13, 32, 160, 0x1680, 0x2028, 0x2029, 0x202F, 0x205F, 0x3000, 0xFEFF].contains c.toNat
    || (0x2000 ≤ c.toNat && c.toNat ≤ 0x200A)

/-- The value of a character as a digit of the given radix (10 or 16), if it is one. -/
def digitValue (radix : Nat) (c : Char) : Option Nat :=
  let v? : Option Nat :=
    if 48 ≤ c.toNat && c.toNat ≤ 57 then some (c.toNat - 48)
    else if 97 ≤ c.toNat && c.toNat ≤ 122 then some (c.toNat - 87)
    else if 65 ≤ c.toNat && c.toNat ≤ 90 then some (c.toNat - 55)
    else none
  v?.filter (fun v => v < radix)

/-- The longest run of digits at the front of the input, as digit values. -/
def takeDigits (radix : Nat) : List Char → List Nat
  | [] => []
  | c :: rest =>
    match digitValue radix c with
    | some d => d :: takeDigits radix rest
    | none => []

/-- The number a run of digits denotes, most significant digit first. -/
def digitsValue (radix : Nat) (digits : List Nat) : Nat :=
  digits.foldl (fun acc d => acc * radix + d) 0

/-- An optional sign in front: whether it is a minus, and the rest of the input. -/
def readSign : List Char → Bool × List Char
  | '-' :: rest => (true, rest)
  | '+' :: rest => (false, rest)
  | cs => (false, cs)

/-- The function `parseInt(string)` with no radix argument: skip white space,
read a sign, switch to radix 16 after `0x` or `0X`, read the longest run of
digits; no digit at all gives `NaN`. -/
def parseIntStr (s : String) : JsNum :=
  let (negative, cs) := readSign (s.data.dropWhile isJsWhitespace)
  let (radix, cs) : Nat × List Char :=
    match cs with
    | '0' :: 'x' :: rest => (16, rest)
    | '0' :: 'X' :: rest => (16, rest)
    | _ => (10, cs)
  let digits := takeDigits radix cs
  if digits.isEmpty then .nan
  else
    let value : Int := digitsValue radix digits
    .int (roundToDouble (if negative then -value else value))

/-- The function `parseInt(value)`: `parseInt` of ToString of the value.  A
Number below `1e21` in magnitude prints as a decimal numeral that denotes it,
so it reads back as itself (and `NaN` prints as `NaN`, which reads as `NaN`);
from `1e21` on the exponent form is read, up to its first character that is
not a digit. -/
def parseInt (value : JsVal) : Except String JsNum :=
  match value with
  | .num .nan => .ok .nan
  | .num (.int i) =>
    if i.natAbs < 10 ^ 21 then .ok (.int i) else .ok (parseIntStr (numberToString i))
  | v => (jsToString v).map parseIntStr

/-- The exponent part `e±digits` at the front of the input, `0` when there is none. -/
def readExponent : List Char → Int
  | c :: rest =>
    if c = 'e' || c = 'E' then
      let (negative, cs) := readSign rest
      let digits := takeDigits 10 cs
      if digits.isEmpty then 0
      else if negative then -(digitsValue 10 digits : Int) else (digitsValue 10 digits : Int)
    else 0
  | [] => 0

/-- Whether the decimal `mantissa * 10 ^ exponent` rounds to the Number zero:
its magnitude is at most `2 ^ -1075`, half the least positive Number. -/
def roundsToZero (mantissa exponent : Int) : Bool :=
  mantissa.natAbs * 2 ^ 1075 ≤ 10 ^ (-exponent).toNat

/-- Whether the decimal `mantissa * 10 ^ exponent` rounds to an infinity: its
magnitude is at least `2 ^ 1024 - 2 ^ 970`, half a step above the greatest
finite Number. -/
def roundsToInfinity (mantissa exponent : Int) : Bool :=
  (2 ^ 1024 - 2 ^ 970) * 10 ^ (-exponent).toNat ≤ mantissa.natAbs * 10 ^ exponent.toNat

/-- The function `parseFloat(string)`: skip white space, read a sign, then
`Infinity` or the longest decimal literal `digits[.digits][e±digits]`;
none gives `NaN`.  A literal that rounds to zero or to an infinity gives that;
any other value is kept as the exact decimal. -/
def parseFloatStr (s : String) : JsFloat :=
  let (negative, cs) := readSign (s.data.dropWhile isJsWhitespace)
  if "Infinity".data.isPrefixOf cs then .inf negative
  else
    let whole := takeDigits 10 cs
    let afterWhole := cs.drop whole.length
    let (frac, afterFrac) : List Nat × List Char :=
      match afterWhole with
      | '.' :: rest => (takeDigits 10 rest, rest.drop (takeDigits 10 rest).length)
      | _ => ([], afterWhole)
    if whole.isEmpty && frac.isEmpty then .nan
    else
      let mantissa : Int := digitsValue 10 (whole ++ frac)
      let exponent : Int := readExponent afterFrac - frac.length
      if roundsToZero mantissa exponent then .fin 0 0
      else if roundsToInfinity mantissa exponent then .inf negative
      else .fin (if negative then -mantissa else mantissa) exponent

/-- The function `parseFloat(value)`: `parseFloat` of ToString of the value. -/
def parseFloat (value : JsVal) : Except String JsFloat :=
  match value with
  | .num .nan => .ok .nan
  | .num (.int i) => .ok (.fin i 0)
  | v => (jsToString v).map parseFloatStr

/-! ## The helpers of the worker -/

/-- The function `Math.max` on two Numbers: `NaN` if either is. -/
def JsNum.max : JsNum → JsNum → JsNum
  | .int a, .int b => .int (Max.max a b)
  | _, _ => .nan

/-- The function `Math.min` on two Numbers: `NaN` if either is. -/
def JsNum.min : JsNum → JsNum → JsNum
  | .int a, .int b => .int (Min.min a b)
  | _, _ => .nan

/-- The order of two fractional Numbers that are not `NaN`. -/
def JsFloat.le : JsFloat → JsFloat → Bool
  | .fin m₁ e₁, .fin m₂ e₂ =>
    let e := Min.min e₁ e₂
    decide (m₁ * 10 ^ (e₁ - e).toNat ≤ m₂ * 10 ^ (e₂ - e).toNat)
  | .inf true, _ => true
  | _, .inf false => true
  | _, _ => false

/-- The function `Math.max` on two fractional Numbers: `NaN` if either is. -/
def JsFloat.max : JsFloat → JsFloat → JsFloat
  | .nan, _ => .nan
  | _, .nan => .nan
  | a, b => if a.le b then b else a

/-- The function `Math.min` on two fractional Numbers: `NaN` if either is. -/
def JsFloat.min : JsFloat → JsFloat → JsFloat
  | .nan, _ => .nan
  | _, .nan => .nan
  | a, b => if a.le b then a else b

/-- Lines 60-62: `clamp(val, min, max) = Math.max(min, Math.min(max, val))`. -/
def clamp (val min max : JsNum) : JsNum :=
  JsNum.max min (JsNum.min max val)

/-- Lines 60-62 at the fractional parameters `strength` and `guidance`. -/
def clampFloat (val min max : JsFloat) : JsFloat :=
  JsFloat.max min (JsFloat.min max val)

/-- The expression `Math.round(v / d)` for an integer `v` and a positive integer
`d`: the quotient `v / d` rounded to the nearest integer, a half going up,
which is `⌊(2 v + d) / (2 d)⌋`. -/
def roundDiv (v d : Int) : Int := (2 * v + d) / (2 * d)

/-- Line 68: `Math.round(v / 64) * 64`; `NaN` stays `NaN`. -/
def roundTo64 : JsNum → JsNum
  | .nan => .nan
  | .int v => .int (roundDiv v 64 * 64)

/-- Lines 65-70: `sanitizeDimension(val, def)`.  The default is taken only for
an argument that is not of type number; `NaN` is of type number. -/
def sanitizeDimensionWith (val : JsVal) (dflt : JsNum) : JsNum :=
  let v := match val with
    | .num n => n
    | _ => dflt
  let v := clamp v (.int 256) (.int 2048)
  roundTo64 v

/-- Lines 65-70 with the declared default `def = 1024`. -/
def sanitizeDimension (val : JsVal) : JsNum :=
  sanitizeDimensionWith val (.int 1024)

/-- A byte of a `Uint8Array`. -/
abbrev Byte := Fin 256

/-- The base64 alphabet of `btoa`. -/
def base64Alphabet : List Char :=
  "ABCDEFGHIJKLMNOPQRSTUVWXYZabcdefghijklmnopqrstuvwxyz0123456789+/".data

/-- The base64 character of a six-bit value. -/
def base64Char (sextet : Nat) : Char := base64Alphabet.getD sextet '='

/-- The function `btoa` on a binary string, given by its character codes:
three bytes give four characters, and a last group of one or two bytes is
padded with `=`. -/
def btoaChars : List Byte → List Char
  | a :: b :: c :: rest =>
    base64Char (a.val / 4) :: base64Char (a.val % 4 * 16 + b.val / 16)
      :: base64Char (b.val % 16 * 4 + c.val / 64) :: base64Char (c.val % 64) :: btoaChars rest
  | [a, b] =>
    [base64Char (a.val / 4), base64Char (a.val % 4 * 16 + b.val / 16), base64Char (b.val % 16 * 4), '=']
  | [a] => [base64Char (a.val / 4), base64Char (a.val % 4 * 16), '=', '=']
  | [] => []

/-- Lines 52-55: the loop `for (i = 0; i < bytes.length; i += chunk)` that
appends the characters of `bytes.subarray(i, i + chunk)` to `binary`.  The
first argument bounds the number of rounds; `bytes.length` rounds always
reach the end, as `i` grows by `chunk = 0x8000` in each. -/
def chunkLoop (bytes : List Byte) : Nat → Nat → List Byte → List Byte
  | 0, _, binary => binary
  | rounds + 1, i, binary =>
    if i < bytes.length then
      chunkLoop bytes rounds (i + 0x8000) (binary ++ (bytes.drop i).take 0x8000)
    else binary

/-- Lines 49-57: `bytesToBase64(bytes)`. -/
def bytesToBase64 (bytes : List Byte) : String :=
  String.mk (btoaChars (chunkLoop bytes bytes.length 0 []))

/-! ## The model registry and the configuration -/

/-- An entry of `SUPPORTED_MODELS`. -/
structure Model where
  id : String
  object : String
  created : Nat
  owned_by : String
  cf_model : String
  max_size : String
  supports_prompt_only : Bool
  deriving Repr, DecidableEq

/-- Lines 8-36: the registry. -/
def SUPPORTED_MODELS : List Model :=
  [ { id := "stable-diffusion-xl", object := "model", created := 1677610602,
      owned_by := "cloudflare", cf_model := "@cf/stabilityai/stable-diffusion-xl-base-1.0",
      max_size := "1024x1024", supports_prompt_only := true },
    { id := "flux-1-schnell", object := "model", created := 1677610602,
      owned_by := "cloudflare", cf_model := "@cf/black-forest-labs/flux-1-schnell",
      max_size := "1024x1024", supports_prompt_only := true },
    { id := "dreamshaper-8-lcm", object := "model", created := 1677610602,
      owned_by := "cloudflare", cf_model := "@cf/lykon/dreamshaper-8-lcm",
      max_size := "1024x1024", supports_prompt_only := true } ]

/-- Lines 39-41: the allow-list of API keys, empty as shipped. -/
def API_KEYS : List String := []

/-- The comparison `m.id === modelId`: strict equality with a string. -/
def JsVal.isString (value : JsVal) (s : String) : Bool :=
  match value with
  | .str t => t == s
  | _ => false

/-- Line 157: `SUPPORTED_MODELS.find(m => m.id === modelId)`, over a registry. -/
def findModel (registry : List Model) (modelId : JsVal) : Option Model :=
  registry.find? (fun m => modelId.isString m.id)

/-! ## Requests, provider and responses -/

/-- The parameter object handed to the provider: the two-field object of the
FLUX branch (lines 185-188) or the eight-field object of the other branch
(lines 191-200).  `height` and `width` are what the destructuring of line 176
binds: a Number, or `none` for `undefined` when `split` produced no such part. -/
inductive Inputs where
  | flux (prompt : JsVal) (steps : JsNum)
  | standard (prompt negative_prompt : JsVal) (height width : Option JsNum)
      (num_steps : JsNum) (strength guidance : JsFloat) (seed : JsNum)
  deriving Repr, Inhabited

/-- The property `seed` of a parameter object, `none` when it has none. -/
def Inputs.seed : Inputs → Option JsNum
  | .flux _ _ => none
  | .standard _ _ _ _ _ _ _ seed => some seed

/-- The property `width` of a parameter object, `none` when it is `undefined`. -/
def Inputs.width : Inputs → Option JsNum
  | .flux _ _ => none
  | .standard _ _ _ width _ _ _ _ => width

/-- The property `height` of a parameter object, `none` when it is `undefined`. -/
def Inputs.height : Inputs → Option JsNum
  | .flux _ _ => none
  | .standard _ _ height _ _ _ _ _ => height

/-- The property `num_steps` of a parameter object, `none` when it has none. -/
def Inputs.num_steps : Inputs → Option JsNum
  | .flux _ _ => none
  | .standard _ _ _ _ num_steps _ _ _ => some num_steps

/-- The property `steps` of a parameter object, `none` when it has none. -/
def Inputs.steps : Inputs → Option JsNum
  | .flux _ steps => some steps
  | .standard _ _ _ _ _ _ _ _ => none

/-- The property names of a parameter object, in the order of the literal. -/
def Inputs.keys : Inputs → List String
  | .flux _ _ => ["prompt", "steps"]
  | .standard _ _ _ _ _ _ _ _ =>
    ["prompt", "negative_prompt", "height", "width", "num_steps", "strength", "guidance", "seed"]

/-- What a call of `env.AI.run` returned, by what the handler reads of it:
`image` is the property `image` of the response taken as an object (lines
218-219, `undefined` when it has none), and `bytes` is the byte content that
lines 226-232 obtain from it, whichever of the three wire shapes it has. -/
structure RawOutput where
  image : JsVal
  bytes : List Byte
  deriving Repr, Inhabited

/-- One invocation of `env.AI.run(cfModel, localInputs)`. -/
structure Call where
  model : String
  inputs : Inputs
  deriving Repr, Inhabited

/-- The surroundings of one request.  `run i model inputs` is the outcome of the
`i`-th provider call of the request: the response, or the message of the
error it raised.  `random` is the draw `Math.floor(Math.random() * 1000000)`
and `now` is `Math.floor(Date.now() / 1000)`. -/
structure Env where
  run : Nat → String → Inputs → Except String RawOutput
  random : Fin 1000000
  now : Nat

/-- An incoming request, by what the handler reads of it.  `json` is the outcome
of `request.json()`: the parsed body, or the message of the rejection. -/
structure Request where
  method : String
  path : String
  authorization : Option String
  json : Except String JsVal

/-- An entry of the `data` array of a generation response. -/
inductive DataEntry where
  | b64_json (image : JsVal)
  | url (url : String)
  deriving Repr, Inhabited

/-- An entry of the `data` array of the model list. -/
structure ModelInfo where
  id : String
  object : String
  created : Nat
  owned_by : String
  deriving Repr, DecidableEq

/-- The JSON body of a response; `none` stands for `null` in `param` and `code`. -/
inductive Body where
  | empty
  | modelList (object : String) (data : List ModelInfo)
  | images (created : Nat) (data : List DataEntry)
  | error (message type : String) (param code : Option String)
  | info (message version : String) (endpoints : List (String × String))
      (supported_models : List String)
  deriving Repr, Inhabited

/-- The member `error.message` of a body, `none` when it is not an error body. -/
def Body.errorMessage : Body → Option String
  | .error message _ _ _ => some message
  | _ => none

/-- The member `error.type` of a body, `none` when it is not an error body. -/
def Body.errorType : Body → Option String
  | .error _ type _ _ => some type
  | _ => none

/-- The member `error.param` of a body, `none` when absent or `null`. -/
def Body.errorParam : Body → Option String
  | .error _ _ param _ => param
  | _ => none

/-- The member `error.code` of a body, `none` when absent or `null`. -/
def Body.errorCode : Body → Option String
  | .error _ _ _ code => code
  | _ => none

/-- The member `data` of a generation body, `none` when the body has none. -/
def Body.data : Body → Option (List DataEntry)
  | .images _ data => some data
  | _ => none

/-- A response: its status and its body (the CORS headers are left out). -/
structure Response where
  status : Nat
  body : Body
  deriving Repr, Inhabited

/-- What handling a request did: the response, and the provider calls in order. -/
structure Outcome where
  response : Response
  calls : List Call
  deriving Repr, Inhabited

/-! ## The generation endpoint -/

/-- Property read `value.key` on a value already known to be neither `null` nor
`undefined` (an earlier read of it went through). -/
def JsVal.get (value : JsVal) (key : String) : JsVal :=
  match value with
  | .obj fields => lookupField key fields
  | _ => .undefined

/-- The test `typeof value === 'string'`. -/
def JsVal.isStr : JsVal → Bool
  | .str _ => true
  | _ => false

/-- The method `split` of a string with a one-character separator. -/
def splitOnChar (sep : Char) : List Char → List (List Char)
  | [] => [[]]
  | c :: rest =>
    if c = sep then [] :: splitOnChar sep rest
    else
      match splitOnChar sep rest with
      | part :: parts => (c :: part) :: parts
      | [] => [[c]]

/-- Line 176: the call `size.split('x')`.  Only a string has the method: on any
other (truthy) value the call raises a TypeError. -/
def splitSize (size : JsVal) : Except String (List String) :=
  match size with
  | .str s => .ok ((splitOnChar 'x' s.data).map String.mk)
  | _ => .error "size.split is not a function"

/-- The values lines 174-201 compute before the loop: the batch size, the
response format and the provider parameters. -/
structure Params where
  n : JsNum
  responseFormat : JsVal
  inputs : Inputs
  deriving Repr, Inhabited

/-- Lines 174-201: parsing of the request parameters and construction of the
provider parameters.  A raised exception is caught by the handler of line 259. -/
def parseParams (requestData : JsVal) (model : Model) (random : Fin 1000000) :
    Except String Params := do
  let n := clamp ((← parseInt (requestData.get "n")).orElse (.int 1)) (.int 1) (.int 4)
  let size := (requestData.get "size").orElse (.str "1024x1024")
  let dims := (← splitSize size).map (fun s => sanitizeDimension (.num (parseIntStr s)))
  let width := dims[0]?
  let height := dims[1]?
  let responseFormat := (requestData.get "response_format").orElse (.str "url")
  let cfModel := model.cf_model
  if cfModel = "@cf/black-forest-labs/flux-1-schnell" then
    let steps := clamp ((← parseInt (requestData.get "steps")).orElse (.int 6)) (.int 4) (.int 8)
    pure ⟨n, responseFormat, .flux (requestData.get "prompt") steps⟩
  else
    let negative_prompt := (requestData.get "negative_prompt").orElse (.str "")
    let num_steps :=
      clamp ((← parseInt (requestData.get "num_steps")).orElse (.int 20)) (.int 1) (.int 50)
    let strength :=
      clampFloat ((← parseFloat (requestData.get "strength")).orElse (.fin 8 (-1)))
        (.fin 0 0) (.fin 1 0)
    let guidance :=
      clampFloat ((← parseFloat (requestData.get "guidance")).orElse (.fin 75 (-1)))
        (.fin 0 0) (.fin 30 0)
    let seed := (← parseInt (requestData.get "seed")).orElse (.int random.val)
    pure ⟨n, responseFormat,
      .standard (requestData.get "prompt") negative_prompt height width num_steps strength
        guidance seed⟩

/-- The sum of two Numbers: the Number nearest to the exact sum, and `NaN` if
either is. -/
def JsNum.add : JsNum → JsNum → JsNum
  | .int a, .int b => .int (roundToDouble (a + b))
  | _, _ => .nan

/-- Lines 208-211: the copy of `inputs` for image `i`, with `i` added to a
truthy `seed`.  The FLUX parameters have no `seed`. -/
def localInputs (inputs : Inputs) (i : Nat) : Inputs :=
  match inputs with
  | .standard prompt negative_prompt height width num_steps strength guidance seed =>
    if seed.truthy then
      .standard prompt negative_prompt height width num_steps strength guidance
        (seed.add (.int i))
    else inputs
  | .flux _ _ => inputs

/-- Lines 215-234: the base64 image data of one provider response. -/
def imageDataOf (cfModel : String) (response : RawOutput) : Except String JsVal :=
  if cfModel = "@cf/black-forest-labs/flux-1-schnell" then
    if !response.image.truthy then .error "Invalid response from FLUX model"
    else .ok response.image
  else .ok (.str (bytesToBase64 response.bytes))

/-- Lines 237-246: the entry pushed to `results` for one image. -/
def shapeResult (responseFormat imageData : JsVal) : Except String DataEntry :=
  if responseFormat.isString "b64_json" then .ok (.b64_json imageData)
  else (jsToString imageData).map (fun s => .url ("data:image/png;base64," ++ s))

/-- The number of rounds of `for (let i = 0; i < n; i++)`: the body runs for
`i = 0, ..., n - 1`, and not at all when `n` is `NaN` or below one. -/
def loopRounds : JsNum → Nat
  | .nan => 0
  | .int n => n.toNat

/-- Lines 207-247: the generation loop, from round `i` on with the given number
of rounds left, the results so far and the calls so far.  It ends with the
results, or with the message of the exception that left the loop; the calls
made are returned with either. -/
def generateLoop (run : Nat → String → Inputs → Except String RawOutput) (cfModel : String)
    (inputs : Inputs) (responseFormat : JsVal) :
    Nat → Nat → List DataEntry → List Call → Except String (List DataEntry) × List Call
  | 0, _, results, calls => (.ok results, calls)
  | rounds + 1, i, results, calls =>
    let calls := calls ++ [⟨cfModel, localInputs inputs i⟩]
    match run i cfModel (localInputs inputs i) with
    | .error message => (.error message, calls)
    | .ok response =>
      match (imageDataOf cfModel response).bind (shapeResult responseFormat) with
      | .error message => (.error message, calls)
      | .ok entry =>
        generateLoop run cfModel inputs responseFormat rounds (i + 1) (results ++ [entry]) calls

/-- Lines 259-272: the response of the handler `catch (aiError)`. -/
def aiErrorResponse (message : String) : Response :=
  ⟨500, .error ("Image generation failed: " ++ (if message != "" then message else "Unknown error"))
    "server_error" none (some "ai_service_error")⟩

/-- Lines 172-272: the inner `try` with its handler, for a request that passed
validation with the registry entry `model`. -/
def generate (env : Env) (requestData : JsVal) (model : Model) : Outcome :=
  match parseParams requestData model env.random with
  | .error message => ⟨aiErrorResponse message, []⟩
  | .ok params =>
    match generateLoop env.run model.cf_model params.inputs params.responseFormat
        (loopRounds params.n) 0 [] [] with
    | (.error message, calls) => ⟨aiErrorResponse message, calls⟩
    | (.ok results, calls) => ⟨⟨200, .images env.now results⟩, calls⟩

/-- Lines 138-272: the branch of `POST /v1/images/generations`, given the parsed
body.  An `Except.error` is an exception that leaves the branch, to be caught
by the handler of line 330. -/
def generations (env : Env) (requestData : JsVal) : Except String Outcome :=
  match getProp requestData "prompt" with
  | .error message => .error message
  | .ok prompt =>
    if !prompt.truthy || !prompt.isStr then
      .ok ⟨⟨400, .error "Missing or invalid 'prompt' parameter" "invalid_request_error"
        (some "prompt") none⟩, []⟩
    else
      let modelId := (requestData.get "model").orElse (.str "dall-e-3")
      match findModel SUPPORTED_MODELS modelId with
      | none =>
        match jsToString modelId with
        | .error message => .error message
        | .ok shown =>
          .ok ⟨⟨400, .error ("Model '" ++ shown ++ "' not found") "invalid_request_error"
            (some "model") (some "model_not_found")⟩, []⟩
      | some model => .ok (generate env requestData model)

/-! ## The handler -/

/-- Lines 89-119: the API key check; `none` lets the request through. -/
def checkApiKey (apiKeys : List String) (authorization : Option String) : Option Response :=
  if apiKeys.length > 0 then
    let authHeader := authorization.getD ""
    if authHeader == "" || !("Bearer ".data.isPrefixOf authHeader.data) then
      some ⟨401, .error "You didn't provide an API key." "invalid_request_error" none none⟩
    else
      let apiKey := String.mk (authHeader.data.drop 7)
      if !apiKeys.contains apiKey then
        some ⟨401, .error "Incorrect API key provided." "invalid_request_error" none
          (some "invalid_api_key")⟩
      else none
  else none

/-- Lines 126-131: the `data` of the model list, over a registry. -/
def listModels (registry : List Model) : List ModelInfo :=
  registry.map (fun model => ⟨model.id, model.object, model.created, model.owned_by⟩)

/-- Lines 85-328: the body of the outer `try`, over an allow-list of keys. -/
def route (apiKeys : List String) (env : Env) (request : Request) : Except String Outcome :=
  match checkApiKey apiKeys request.authorization with
  | some denied => .ok ⟨denied, []⟩
  | none =>
    if request.path = "/v1/models" && request.method = "GET" then
      .ok ⟨⟨200, .modelList "list" (listModels SUPPORTED_MODELS)⟩, []⟩
    else if request.path = "/v1/images/generations" && request.method = "POST" then
      match request.json with
      | .error message => .error message
      | .ok requestData => generations env requestData
    else if request.path = "/v1/images/edits" && request.method = "POST" then
      .ok ⟨⟨501, .error "Image editing endpoint not implemented yet" "not_implemented_error" none
        (some "not_implemented")⟩, []⟩
    else if request.path = "/v1/images/variations" && request.method = "POST" then
      .ok ⟨⟨501, .error "Image variations endpoint not implemented yet" "not_implemented_error"
        none (some "not_implemented")⟩, []⟩
    else if request.path = "/" then
      .ok ⟨⟨200, .info "Cloudflare Worker AI - OpenAI Compatible Image Generation API" "1.0.0"
        [("models", "GET /v1/models"), ("generate", "POST /v1/images/generations")]
        (SUPPORTED_MODELS.map (fun m => m.id))⟩, []⟩
    else
      .ok ⟨⟨404, .error "Not Found" "invalid_request_error" none (some "not_found")⟩, []⟩

/-- Lines 330-343: the outcome of the handler `catch (error)`. -/
def internalError (message : String) : Outcome :=
  ⟨⟨500, .error ("Internal server error: " ++ message) "server_error" none
    (some "internal_error")⟩, []⟩

/-- Lines 73-344: `fetch(request, env)` over an allow-list of keys.  An `OPTIONS`
request is answered at once; an exception that leaves the routes gives the
response of the handler `catch (error)` of line 330. -/
def fetchWith (apiKeys : List String) (env : Env) (request : Request) : Outcome :=
  if request.method = "OPTIONS" then ⟨⟨200, .empty⟩, []⟩
  else
    match route apiKeys env request with
    | .ok outcome => outcome
    | .error message => internalError message

/-- Lines 73-344: `fetch(request, env)` with the shipped `API_KEYS`. -/
def fetch (env : Env) (request : Request) : Outcome :=
  fetchWith API_KEYS env request

/-! ## Vocabulary of the properties -/

/-- The request `POST /v1/images/generations` with the given `Authorization`
header and the given parsed JSON body. -/
def generationRequest (authorization : Option String) (body : JsVal) : Request :=
  ⟨"POST", "/v1/images/generations", authorization, .ok body⟩

/-- ToString accepts the value: it is a primitive, or an array or object in
which no object that gets printed has an own `toString` property. -/
def JsVal.printable (value : JsVal) : Bool :=
  match jsToString value with
  | .ok _ => true
  | .error _ => false

/-- The fields of the body whose values lines 174-199 hand to `parseInt` or
`parseFloat`, which convert them to strings, on the path of a model: `n` and
`steps` for the FLUX model; `n`, `num_steps`, `strength`, `guidance` and `seed`
for the others. -/
def convertedFields (cfModel : String) : List String :=
  if cfModel = "@cf/black-forest-labs/flux-1-schnell" then ["n", "steps"]
  else ["n", "num_steps", "strength", "guidance", "seed"]

/-- The provider output is well formed for the model: the FLUX model answers an
object whose `image` is a non-empty string; the other models answer binary
data, of any content. -/
def wellFormed (cfModel : String) (output : RawOutput) : Bool :=
  if cfModel = "@cf/black-forest-labs/flux-1-schnell" then
    output.image.isStr && output.image.truthy
  else true

/-- The provider parameters of the calls `first, ..., first + count - 1` of a
batch over `inputs`. -/
def batchCalls (cfModel : String) (inputs : Inputs) (first count : Nat) : List Call :=
  (List.range' first count).map (fun i => ⟨cfModel, localInputs inputs i⟩)

/-- Spec-side: `clamp(v, lo, hi)` on integers. -/
def specClamp (v lo hi : Int) : Int := max lo (min hi v)

/-- Spec-side: rounding of a rational to the nearest integer, a half going up. -/
def specRound (q : ℚ) : Int := ⌊q + 1 / 2⌋

/-- Spec-side: the normalised dimension `round(clamp(v, 256, 2048) / 64) * 64`. -/
def specSanitize (v : Int) : Int := specRound ((specClamp v 256 2048 : ℚ) / 64) * 64

/-- Spec-side: the batch size for a parsed `n`: `clamp(k, 1, 4)` for an integer
`k`, and `1` when `n` is absent or does not parse. -/
def specBatchSize : JsNum → Nat
  | .nan => 1
  | .int k => (specClamp k 1 4).toNat

/-- Spec-side: the entry for a base64 string `b` under a `response_format`:
the member `b64_json` for exactly the string `b64_json`, a data URL otherwise. -/
def specEntry (responseFormat : JsVal) (b : String) : DataEntry :=
  if responseFormat.isString "b64_json" then .b64_json (.str b)
  else .url ("data:image/png;base64," ++ b)

/-- Spec-side, as amended: the dispatched `num_steps` for a parsed `num_steps`:
`clamp(v, 1, 50)` for an integer `v` other than zero, and the default 20 when
the field is absent, does not parse, or is zero. -/
def specNumSteps : JsNum → Int
  | .nan => 20
  | .int v => if v = 0 then 20 else specClamp v 1 50

/-- Spec-side, as amended: the dispatched `steps` of the FLUX model for a parsed
`steps`: `clamp(v, 4, 8)` for an integer `v` other than zero, and the default
6 when the field is absent, does not parse, or is zero. -/
def specSteps : JsNum → Int
  | .nan => 6
  | .int v => if v = 0 then 6 else specClamp v 4 8

/-- Spec-side: the eight bits of a byte, the most significant first. -/
def bitsOfByte (b : Byte) : List Nat :=
  [b.val / 128 % 2, b.val / 64 % 2, b.val / 32 % 2, b.val / 16 % 2, b.val / 8 % 2,
    b.val / 4 % 2, b.val / 2 % 2, b.val % 2]

/-- Spec-side: the number a run of bits denotes, the most significant first. -/
def natOfBits (bits : List Nat) : Nat :=
  bits.foldl (fun acc bit => 2 * acc + bit) 0

/-- Spec-side: a run of bits cut into groups of six. -/
def sixes : List Nat → List (List Nat)
  | b0 :: b1 :: b2 :: b3 :: b4 :: b5 :: rest => [b0, b1, b2, b3, b4, b5] :: sixes rest
  | _ => []

/-- Spec-side: the encoding of one input group of 8, 16 or 24 bits (RFC 4648,
section 4): zero bits are added on the right up to a whole number of 6-bit
groups, each group is translated by the alphabet, and `=` fills the output up
to four characters. -/
def specQuantum (bits : List Nat) : List Char :=
  let padded := bits ++ List.replicate ((6 - bits.length % 6) % 6) 0
  let chars := (sixes padded).map (fun group => base64Char (natOfBits group))
  chars ++ List.replicate (4 - chars.length) '='

/-- Spec-side: standard padded base64 (RFC 4648, section 4): the input is taken
from left to right in groups of three bytes, the last group having one, two
or three. -/
def specBase64 : List Byte → List Char
  | a :: b :: c :: rest =>
    specQuantum (bitsOfByte a ++ bitsOfByte b ++ bitsOfByte c) ++ specBase64 rest
  | [a, b] => specQuantum (bitsOfByte a ++ bitsOfByte b)
  | [a] => specQuantum (bitsOfByte a)
  | [] => []

/-- Spec-side: the six-bit value of a character of the base64 alphabet. -/
def base64Value (c : Char) : Option Nat :=
  let position := base64Alphabet.indexOf c
  if position < 64 then some position else none

/-- Spec-side: standard base64 decoding: four characters give three bytes, and a
last group ending in `=` or `==` gives two bytes or one. -/
def base64Decode : List Char → Option (List Byte)
  | [] => some []
  | c1 :: c2 :: c3 :: c4 :: rest =>
    if c4 = '=' then
      if rest ≠ [] then none
      else if c3 = '=' then do
        let v1 ← base64Value c1
        let v2 ← base64Value c2
        pure [Fin.ofNat (v1 * 4 + v2 / 16)]
      else do
        let v1 ← base64Value c1
        let v2 ← base64Value c2
        let v3 ← base64Value c3
        pure [Fin.ofNat (v1 * 4 + v2 / 16), Fin.ofNat (v2 % 16 * 16 + v3 / 4)]
    else do
      let v1 ← base64Value c1
      let v2 ← base64Value c2
      let v3 ← base64Value c3
      let v4 ← base64Value c4
      let bytes ← base64Decode rest
      pure (Fin.ofNat (v1 * 4 + v2 / 16) :: Fin.ofNat (v2 % 16 * 16 + v3 / 4)
        :: Fin.ofNat (v3 % 4 * 64 + v4) :: bytes)
  | _ => none

/-! ## Sample surroundings and requests -/

/-- A provider that answers every call with the same well-formed output. -/
def steadyEnv : Env :=
  ⟨fun _ _ _ => .ok ⟨.str "QUJD", [65, 66, 67]⟩, ⟨42, by decide⟩, 1700000000⟩

/-- A provider whose call of index `j` raises `Error(message)`, the others
answering a well-formed output. -/
def failingEnv (j : Nat) (message : String) : Env :=
  ⟨fun i _ _ => if i = j then .error message else .ok ⟨.str "QUJD", [65, 66, 67]⟩,
    ⟨42, by decide⟩, 1700000000⟩

/-- A provider answering well-formed output, with the random draw 0. -/
def zeroDrawEnv : Env :=
  ⟨fun _ _ _ => .ok ⟨.str "QUJD", [65, 66, 67]⟩, ⟨0, by decide⟩, 1700000000⟩

/-- A provider whose call of index `j` answers an object without `image`, the
others answering a well-formed output. -/
def imagelessEnv (j : Nat) : Env :=
  ⟨fun i _ _ => if i = j then .ok ⟨.undefined, []⟩ else .ok ⟨.str "QUJD", [65, 66, 67]⟩,
    ⟨42, by decide⟩, 1700000000⟩

/-- The registry entry of the standard model `dreamshaper-8-lcm`. -/
def dreamshaper : Model :=
  ⟨"dreamshaper-8-lcm", "model", 1677610602, "cloudflare", "@cf/lykon/dreamshaper-8-lcm",
    "1024x1024", true⟩

/-- The registry entry of the FLUX model. -/
def fluxSchnell : Model :=
  ⟨"flux-1-schnell", "model", 1677610602, "cloudflare", "@cf/black-forest-labs/flux-1-schnell",
    "1024x1024", true⟩

/-- The fields of a request with the prompt `a cat`, a model, a value of `n` and
further fields. -/
def sampleFields (model : String) (n : JsVal) (further : List (String × JsVal)) :
    List (String × JsVal) :=
  [("prompt", .str "a cat"), ("model", .str model), ("n", n)] ++ further


/-! # Properties -/

/-! ## Size normalisation -/

theorem roundDiv_eq_specRound (c : Int) : roundDiv c 64 = specRound ((c : ℚ) / 64) := by
  have h : (c : ℚ) / 64 + 1 / 2 = ((2 * c + 64 : ℤ) : ℚ) / ((128 : ℕ) : ℚ) := by
    push_cast
    ring
  unfold specRound roundDiv
  rw [h, Rat.floor_intCast_div_natCast]
  norm_num

theorem sanitizeDimension_int (v : Int) :
    sanitizeDimension (.num (.int v)) = .int (roundDiv (max 256 (min 2048 v)) 64 * 64) := rfl

theorem sanitizeDimension_nan : sanitizeDimension (.num .nan) = .nan := rfl

theorem sanitizeDimension_fixed (val : JsVal) :
    sanitizeDimension (.num (sanitizeDimension val)) = sanitizeDimension val := by
  have hint : ∀ v : Int, sanitizeDimension (.num (sanitizeDimension (.num (.int v))))
      = sanitizeDimension (.num (.int v)) := by
    intro v
    rw [sanitizeDimension_int v, sanitizeDimension_int]
    unfold roundDiv
    congr 1
    omega
  cases val with
  | num n =>
    cases n with
    | nan => rfl
    | int v => exact hint v
  | undefined => exact hint 1024
  | null => exact hint 1024
  | bool b => exact hint 1024
  | str s => exact hint 1024
  | arr items => exact hint 1024
  | obj fields => exact hint 1024

/-- C8.  For every integer `v`, `sanitizeDimension(v)` is
`round(clamp(v, 256, 2048) / 64) * 64` with a half rounded up; the result is a
multiple of 64, lies in `[256, 2048]` and is at most 32 away from the clamped
value; `2048` stays `2048` and `260` becomes `256`. -/
theorem sanitizeDimension_spec (v : Int) :
    sanitizeDimension (.num (.int v)) = .int (specSanitize v)
      ∧ 64 ∣ specSanitize v
      ∧ 256 ≤ specSanitize v ∧ specSanitize v ≤ 2048
      ∧ |specSanitize v - specClamp v 256 2048| ≤ 32
      ∧ sanitizeDimension (.num (.int 2048)) = .int 2048
      ∧ sanitizeDimension (.num (.int 260)) = .int 256 := by
  have hs : specSanitize v = roundDiv (max 256 (min 2048 v)) 64 * 64 := by
    unfold specSanitize specClamp
    rw [roundDiv_eq_specRound]
  have hc : specClamp v 256 2048 = max 256 (min 2048 v) := rfl
  rw [hs, hc]
  unfold roundDiv
  exact ⟨rfl, Dvd.intro_left _ rfl, by omega, by omega,
    abs_le.mpr ⟨by omega, by omega⟩, by decide, by decide⟩

/-- C9.  Size normalisation is idempotent: for every integer `v`,
`sanitizeDimension(sanitizeDimension(v)) = sanitizeDimension(v)`. -/
theorem sanitizeDimension_idempotent (v : Int) :
    sanitizeDimension (.num (sanitizeDimension (.num (.int v))))
      = sanitizeDimension (.num (.int v)) :=
  sanitizeDimension_fixed (.num (.int v))

/-! ## Conversions that cannot raise -/

theorem printable_iff (v : JsVal) : v.printable = true ↔ ∃ s, jsToString v = .ok s := by
  unfold JsVal.printable
  cases h : jsToString v <;> simp

theorem parseInt_of_printable {v : JsVal} (h : v.printable = true) : ∃ k, parseInt v = .ok k := by
  obtain ⟨s, hs⟩ := (printable_iff v).mp h
  cases v with
  | num n =>
    cases n with
    | nan => exact ⟨_, rfl⟩
    | int i =>
      simp only [parseInt]
      split <;> exact ⟨_, rfl⟩
  | _ => simp [parseInt, hs, Except.map]

theorem parseFloat_of_printable {v : JsVal} (h : v.printable = true) :
    ∃ x, parseFloat v = .ok x := by
  obtain ⟨s, hs⟩ := (printable_iff v).mp h
  cases v with
  | num n => cases n <;> simp [parseFloat]
  | _ => simp [parseFloat, hs, Except.map]

theorem splitSize_of_size {size : JsVal} (h : size = .undefined ∨ size.isStr = true) :
    ∃ parts, splitSize (size.orElse (.str "1024x1024")) = .ok parts := by
  rcases h with h | h
  · subst h
    exact ⟨_, rfl⟩
  · cases size <;> simp [JsVal.isStr] at h
    rename_i s
    by_cases hs : s = ""
    · subst hs
      exact ⟨_, rfl⟩
    · refine ⟨(splitOnChar 'x' s.data).map String.mk, ?_⟩
      simp [JsVal.orElse, JsVal.truthy, hs, splitSize]

/-- Lines 174-201 go through when `size` is a string or absent and ToString
accepts the values of the fields converted on the path of the model: the batch
size is the clamp of the parsed `n` (or of 1), the response format the field
or `url`. -/
theorem parseParams_ok {fields : List (String × JsVal)} (model : Model) (random : Fin 1000000)
    (hsize : lookupField "size" fields = .undefined ∨ (lookupField "size" fields).isStr = true)
    (hplain : ∀ key ∈ convertedFields model.cf_model, (lookupField key fields).printable = true) :
    ∃ k inputs, parseInt (lookupField "n" fields) = .ok k ∧
      parseParams (.obj fields) model random =
        .ok ⟨clamp (k.orElse (.int 1)) (.int 1) (.int 4),
          (lookupField "response_format" fields).orElse (.str "url"), inputs⟩ := by
  obtain ⟨parts, hparts⟩ := splitSize_of_size hsize
  by_cases hflux : model.cf_model = "@cf/black-forest-labs/flux-1-schnell"
  · simp only [convertedFields, hflux, if_true, List.mem_cons, List.mem_singleton,
      List.not_mem_nil, or_false, forall_eq_or_imp, forall_eq] at hplain
    obtain ⟨k, hk⟩ := parseInt_of_printable hplain.1
    obtain ⟨steps, hsteps⟩ := parseInt_of_printable hplain.2
    refine ⟨k, ?_⟩
    simp only [parseParams, JsVal.get, hk, hsteps, hparts, hflux, bind, Except.bind, pure,
      Except.pure, if_true]
    exact ⟨_, trivial, rfl⟩
  · simp only [convertedFields, hflux, if_false, List.mem_cons, List.mem_singleton,
      List.not_mem_nil, or_false, forall_eq_or_imp, forall_eq] at hplain
    obtain ⟨hn, hnum, hstrength, hguidance, hseed⟩ := hplain
    obtain ⟨k, hk⟩ := parseInt_of_printable hn
    obtain ⟨numSteps, hnum⟩ := parseInt_of_printable hnum
    obtain ⟨strength, hstrength⟩ := parseFloat_of_printable hstrength
    obtain ⟨guidance, hguidance⟩ := parseFloat_of_printable hguidance
    obtain ⟨seed, hseed⟩ := parseInt_of_printable hseed
    refine ⟨k, ?_⟩
    simp only [parseParams, JsVal.get, hk, hnum, hseed, hstrength, hguidance, hparts, hflux,
      bind, Except.bind, pure, Except.pure, if_false]
    exact ⟨_, trivial, rfl⟩

/-- A value that `parseInt` converted is one that ToString accepts. -/
theorem printable_of_parseInt {v : JsVal} {k : JsNum} (h : parseInt v = .ok k) :
    v.printable = true := by
  rw [printable_iff]
  cases hs : jsToString v with
  | ok s => exact ⟨s, rfl⟩
  | error message =>
    cases v with
    | num n => cases n <;> simp [jsToString] at hs
    | _ => simp [parseInt, hs, Except.map] at h

/-- A value that `parseFloat` converted is one that ToString accepts. -/
theorem printable_of_parseFloat {v : JsVal} {x : JsFloat} (h : parseFloat v = .ok x) :
    v.printable = true := by
  rw [printable_iff]
  cases hs : jsToString v with
  | ok s => exact ⟨s, rfl⟩
  | error message =>
    cases v with
    | num n => cases n <;> simp [jsToString] at hs
    | _ => simp [parseFloat, hs, Except.map] at h

/-- When lines 174-201 go through, ToString accepted the value of every field
converted on the path of the model. -/
theorem parseParams_converted {fields : List (String × JsVal)} {model : Model}
    {random : Fin 1000000} {params : Params}
    (h : parseParams (.obj fields) model random = .ok params) :
    ∀ key ∈ convertedFields model.cf_model, (lookupField key fields).printable = true := by
  unfold parseParams at h
  simp only [bind, Except.bind, pure, Except.pure, JsVal.get] at h
  cases hn : parseInt (lookupField "n" fields) with
  | error message => simp [hn] at h
  | ok k =>
    simp only [hn] at h
    cases hparts : splitSize ((lookupField "size" fields).orElse (.str "1024x1024")) with
    | error message => simp [hparts] at h
    | ok parts =>
      simp only [hparts] at h
      by_cases hflux : model.cf_model = "@cf/black-forest-labs/flux-1-schnell"
      · simp only [hflux, if_true] at h
        cases hsteps : parseInt (lookupField "steps" fields) with
        | error message => simp [hsteps] at h
        | ok steps =>
          simp only [convertedFields, hflux, if_true, List.mem_cons, List.mem_singleton,
            List.not_mem_nil, or_false, forall_eq_or_imp, forall_eq]
          exact ⟨printable_of_parseInt hn, printable_of_parseInt hsteps⟩
      · simp only [hflux, if_false] at h
        cases hnum : parseInt (lookupField "num_steps" fields) with
        | error message => simp [hnum] at h
        | ok numSteps =>
          simp only [hnum] at h
          cases hstrength : parseFloat (lookupField "strength" fields) with
          | error message => simp [hstrength] at h
          | ok strength =>
            simp only [hstrength] at h
            cases hguidance : parseFloat (lookupField "guidance" fields) with
            | error message => simp [hguidance] at h
            | ok guidance =>
              simp only [hguidance] at h
              cases hseed : parseInt (lookupField "seed" fields) with
              | error message => simp [hseed] at h
              | ok seed =>
                simp only [convertedFields, hflux, if_false, List.mem_cons, List.mem_singleton,
                  List.not_mem_nil, or_false, forall_eq_or_imp, forall_eq]
                exact ⟨printable_of_parseInt hn, printable_of_parseInt hnum,
                  printable_of_parseFloat hstrength, printable_of_parseFloat hguidance,
                  printable_of_parseInt hseed⟩

/-! ## The generation loop -/

theorem batchCalls_zero (cfModel : String) (inputs : Inputs) (first : Nat) :
    batchCalls cfModel inputs first 0 = [] := rfl

theorem batchCalls_succ (cfModel : String) (inputs : Inputs) (first count : Nat) :
    batchCalls cfModel inputs first (count + 1) =
      ⟨cfModel, localInputs inputs first⟩ :: batchCalls cfModel inputs (first + 1) count := by
  simp [batchCalls, List.range'_succ]

theorem batchCalls_length (cfModel : String) (inputs : Inputs) (first count : Nat) :
    (batchCalls cfModel inputs first count).length = count := by
  simp [batchCalls]

theorem batchCalls_getElem (cfModel : String) (inputs : Inputs) (first count i : Nat)
    (h : i < (batchCalls cfModel inputs first count).length) :
    (batchCalls cfModel inputs first count)[i] = ⟨cfModel, localInputs inputs (first + i)⟩ := by
  simp [batchCalls]

/-- A well-formed output gives an entry, whatever the response format. -/
theorem shape_of_wellFormed {cfModel : String} {output : RawOutput} (responseFormat : JsVal)
    (h : wellFormed cfModel output = true) :
    ∃ entry, (imageDataOf cfModel output).bind (shapeResult responseFormat) = .ok entry := by
  unfold wellFormed at h
  unfold imageDataOf
  split
  · rename_i hflux
    simp only [hflux, if_true, Bool.and_eq_true] at h
    obtain ⟨hstr, htruthy⟩ := h
    cases himg : output.image <;> simp [himg, JsVal.isStr] at hstr
    rw [himg] at htruthy
    simp only [htruthy, Bool.not_true, Bool.false_eq_true, if_false, Except.bind, shapeResult,
      jsToString, Except.map]
    split <;> exact ⟨_, rfl⟩
  · simp only [Except.bind, shapeResult, jsToString, Except.map]
    split <;> exact ⟨_, rfl⟩

/-- The calls of the loop are the calls of consecutive rounds, all of them when
the loop ends with results. -/
theorem generateLoop_calls (run : Nat → String → Inputs → Except String RawOutput)
    (cfModel : String) (inputs : Inputs) (responseFormat : JsVal) :
    ∀ (rounds i : Nat) (results : List DataEntry) (calls : List Call),
      ∃ m, m ≤ rounds ∧
        (generateLoop run cfModel inputs responseFormat rounds i results calls).2
          = calls ++ batchCalls cfModel inputs i m ∧
        (∀ data, (generateLoop run cfModel inputs responseFormat rounds i results calls).1
          = .ok data → m = rounds ∧ data.length = results.length + rounds) := by
  intro rounds
  induction rounds with
  | zero =>
    intro i results calls
    exact ⟨0, le_refl _, by simp [generateLoop, batchCalls], by simp [generateLoop]⟩
  | succ rounds ih =>
    intro i results calls
    unfold generateLoop
    cases hrun : run i cfModel (localInputs inputs i) with
    | error message =>
      exact ⟨1, by omega, by simp [batchCalls], by simp⟩
    | ok response =>
      cases hshape : (imageDataOf cfModel response).bind (shapeResult responseFormat) with
      | error message =>
        simp only [hshape]
        exact ⟨1, by omega, by simp [batchCalls], by simp⟩
      | ok entry =>
        simp only [hshape]
        obtain ⟨m, hm, hcalls, hdata⟩ :=
          ih (i + 1) (results ++ [entry]) (calls ++ [⟨cfModel, localInputs inputs i⟩])
        refine ⟨m + 1, by omega, ?_, ?_⟩
        · simp only [hcalls, batchCalls_succ, List.append_assoc, List.singleton_append]
        · intro data hd
          obtain ⟨h1, h2⟩ := hdata data hd
          simp only [List.length_append, List.length_singleton] at h2
          exact ⟨by omega, by omega⟩

/-- With a provider whose every call answers a well-formed output the loop runs
all its rounds and ends with one entry for each. -/
theorem generateLoop_ok (run : Nat → String → Inputs → Except String RawOutput)
    (cfModel : String) (inputs : Inputs) (responseFormat : JsVal)
    (hrun : ∀ i params, ∃ output, run i cfModel params = .ok output
      ∧ wellFormed cfModel output = true) :
    ∀ (rounds i : Nat) (results : List DataEntry) (calls : List Call),
      ∃ entries, entries.length = rounds ∧
        generateLoop run cfModel inputs responseFormat rounds i results calls
          = (.ok (results ++ entries), calls ++ batchCalls cfModel inputs i rounds) := by
  intro rounds
  induction rounds with
  | zero =>
    intro i results calls
    exact ⟨[], rfl, by simp [generateLoop, batchCalls]⟩
  | succ rounds ih =>
    intro i results calls
    obtain ⟨output, hout, hwf⟩ := hrun i (localInputs inputs i)
    obtain ⟨entry, hentry⟩ := shape_of_wellFormed responseFormat hwf
    obtain ⟨entries, hlen, hloop⟩ :=
      ih (i + 1) (results ++ [entry]) (calls ++ [⟨cfModel, localInputs inputs i⟩])
    refine ⟨entry :: entries, by simp [hlen], ?_⟩
    unfold generateLoop
    simp only [hout, hentry, hloop, batchCalls_succ, List.append_assoc, List.singleton_append]

/-- Every entry the loop adds is the shaping of the image data of one provider
response of the batch. -/
theorem generateLoop_entries (run : Nat → String → Inputs → Except String RawOutput)
    (cfModel : String) (inputs : Inputs) (responseFormat : JsVal) :
    ∀ (rounds i : Nat) (results : List DataEntry) (calls : List Call) (data : List DataEntry),
      (generateLoop run cfModel inputs responseFormat rounds i results calls).1 = .ok data →
      ∃ entries, data = results ++ entries ∧
        ∀ entry ∈ entries, ∃ k output image,
          run k cfModel (localInputs inputs k) = .ok output ∧
          imageDataOf cfModel output = .ok image ∧
          shapeResult responseFormat image = .ok entry := by
  intro rounds
  induction rounds with
  | zero =>
    intro i results calls data h
    simp only [generateLoop, Except.ok.injEq] at h
    exact ⟨[], by simp [h], by simp⟩
  | succ rounds ih =>
    intro i results calls data h
    unfold generateLoop at h
    cases hrun : run i cfModel (localInputs inputs i) with
    | error message => simp [hrun] at h
    | ok response =>
      cases himage : imageDataOf cfModel response with
      | error message => simp [hrun, himage, Except.bind] at h
      | ok image =>
        cases hshape : shapeResult responseFormat image with
        | error message => simp [hrun, himage, hshape, Except.bind] at h
        | ok entry =>
          simp only [hrun, himage, hshape, Except.bind] at h
          obtain ⟨entries, hdata, hall⟩ := ih _ _ _ _ h
          refine ⟨entry :: entries, by simp [hdata], ?_⟩
          intro e he
          rcases List.mem_cons.mp he with rfl | he
          · exact ⟨i, response, image, hrun, himage, hshape⟩
          · exact hall e he

/-- When the rounds before round `j` go through and the call of round `j`
raises, the loop ends there with the raised message, after the calls of the
rounds `0, ..., j`. -/
theorem generateLoop_raises (run : Nat → String → Inputs → Except String RawOutput)
    (cfModel : String) (inputs : Inputs) (responseFormat : JsVal) (message : String) :
    ∀ (j rounds i : Nat) (results : List DataEntry) (calls : List Call),
      j < rounds →
      (∀ k, k < j → ∃ output entry, run (i + k) cfModel (localInputs inputs (i + k)) = .ok output
        ∧ (imageDataOf cfModel output).bind (shapeResult responseFormat) = .ok entry) →
      run (i + j) cfModel (localInputs inputs (i + j)) = .error message →
      generateLoop run cfModel inputs responseFormat rounds i results calls
        = (.error message, calls ++ batchCalls cfModel inputs i (j + 1)) := by
  intro j
  induction j with
  | zero =>
    intro rounds i results calls hj _ hraise
    obtain ⟨rounds, rfl⟩ : ∃ r, rounds = r + 1 := ⟨rounds - 1, by omega⟩
    unfold generateLoop
    simp only [Nat.add_zero] at hraise
    simp [hraise, batchCalls]
  | succ j ih =>
    intro rounds i results calls hj hbefore hraise
    obtain ⟨rounds, rfl⟩ : ∃ r, rounds = r + 1 := ⟨rounds - 1, by omega⟩
    obtain ⟨output, entry, hout, hentry⟩ := hbefore 0 (by omega)
    simp only [Nat.add_zero] at hout hentry
    unfold generateLoop
    simp only [hout, hentry]
    rw [ih rounds (i + 1) _ _ (by omega)]
    · simp only [batchCalls_succ _ _ i, List.append_assoc, List.singleton_append]
    · intro k hk
      have := hbefore (k + 1) (by omega)
      rwa [show i + (k + 1) = i + 1 + k by omega] at this
    · rwa [show i + (j + 1) = i + 1 + j by omega] at hraise

/-! ## Routing and validation of a generation request -/

theorem fetch_generationRequest (env : Env) (authorization : Option String) (body : JsVal) :
    fetch env (generationRequest authorization body) =
      match generations env body with
      | .ok outcome => outcome
      | .error message => internalError message := by
  simp [fetch, fetchWith, route, checkApiKey, API_KEYS, generationRequest]

theorem truthy_of_nonempty {prompt : String} (h : prompt ≠ "") :
    (JsVal.str prompt).truthy = true := by
  simp [JsVal.truthy, h]

/-- A registered id resolves to its registry entry. -/
theorem findModel_registered {model : Model} {value : JsVal} (hmodel : model ∈ SUPPORTED_MODELS)
    (hid : value = .str model.id) :
    findModel SUPPORTED_MODELS (value.orElse (.str "dall-e-3")) = some model := by
  subst hid
  simp only [SUPPORTED_MODELS, List.mem_cons, List.mem_singleton, List.not_mem_nil, or_false]
    at hmodel
  rcases hmodel with rfl | rfl | rfl <;> rfl

/-- A request that passes validation is answered by the inner `try`. -/
theorem fetch_validated (env : Env) (authorization : Option String)
    {fields : List (String × JsVal)} {model : Model} {prompt : String}
    (hprompt : lookupField "prompt" fields = .str prompt) (hne : prompt ≠ "")
    (hmodel : model ∈ SUPPORTED_MODELS) (hid : lookupField "model" fields = .str model.id) :
    fetch env (generationRequest authorization (.obj fields)) = generate env (.obj fields) model := by
  rw [fetch_generationRequest]
  simp only [generations, getProp, hprompt, truthy_of_nonempty hne, JsVal.isStr, JsVal.get,
    findModel_registered hmodel hid]
  rfl

theorem loopRounds_clamp (k : JsNum) :
    loopRounds (clamp (k.orElse (.int 1)) (.int 1) (.int 4)) = specBatchSize k := by
  cases k with
  | nan => rfl
  | int i =>
    by_cases h : i = 0
    · subst h
      rfl
    · simp [JsNum.orElse, JsNum.truthy, h, clamp, JsNum.max, JsNum.min, loopRounds,
        specBatchSize, specClamp]

/-- C1, amended.  A request with a non-empty string prompt, a registered model,
a string or absent `size`, values that ToString accepts in the fields converted
on the path of the model (`n` and `steps` for FLUX; `n`, `num_steps`,
`strength`, `guidance` and `seed` otherwise; every primitive is such a value)
and a provider whose calls all answer well-formed output is answered with
status 200 and a `data` array of length `clamp(k, 1, 4)`, where `k` is what
`parseInt` makes of `n`, and of length 1 when `n` is absent or does not parse. -/
theorem batch_size_clamped (env : Env) (authorization : Option String)
    (fields : List (String × JsVal)) (model : Model) (prompt : String)
    (hprompt : lookupField "prompt" fields = .str prompt) (hne : prompt ≠ "")
    (hmodel : model ∈ SUPPORTED_MODELS) (hid : lookupField "model" fields = .str model.id)
    (hsize : lookupField "size" fields = .undefined ∨ (lookupField "size" fields).isStr = true)
    (hplain : ∀ key ∈ convertedFields model.cf_model, (lookupField key fields).printable = true)
    (hrun : ∀ i params, ∃ output, env.run i model.cf_model params = .ok output
      ∧ wellFormed model.cf_model output = true) :
    ∃ k data, parseInt (lookupField "n" fields) = .ok k
      ∧ (fetch env (generationRequest authorization (.obj fields))).response
          = ⟨200, .images env.now data⟩
      ∧ data.length = specBatchSize k := by
  obtain ⟨k, inputs, hk, hparams⟩ := parseParams_ok model env.random hsize hplain
  obtain ⟨entries, hlen, hloop⟩ :=
    generateLoop_ok env.run model.cf_model inputs
      ((lookupField "response_format" fields).orElse (.str "url")) hrun
      (loopRounds (clamp (k.orElse (.int 1)) (.int 1) (.int 4))) 0 [] []
  refine ⟨k, entries, hk, ?_, by rw [hlen, loopRounds_clamp]⟩
  rw [fetch_validated env authorization hprompt hne hmodel hid]
  simp only [generate, hparams, hloop, List.nil_append]

/-- The answer of the prompt check of lines 141-153. -/
theorem generations_prompt_rejected (env : Env) (fields : List (String × JsVal))
    (h : lookupField "prompt" fields = .undefined ∨ lookupField "prompt" fields = .str "") :
    generations env (.obj fields) =
      .ok ⟨⟨400, .error "Missing or invalid 'prompt' parameter" "invalid_request_error"
        (some "prompt") none⟩, []⟩ := by
  rcases h with h | h <;> simp [generations, getProp, h, JsVal.truthy, JsVal.isStr]

/-- The inner `try` never names a parameter in its answer. -/
theorem generate_errorParam (env : Env) (requestData : JsVal) (model : Model) :
    (generate env requestData model).response.body.errorParam = none := by
  unfold generate
  split
  · rfl
  · split <;> rfl

/-- C2.  A generation request whose body has no `prompt` or the empty string as
`prompt` is answered with status 400, type `invalid_request_error` and param
`prompt`, whatever its other fields; and an answer with param `prompt` is
given only when `prompt` is not a non-empty string. -/
theorem prompt_required (env : Env) (authorization : Option String)
    (fields : List (String × JsVal)) :
    ((lookupField "prompt" fields = .undefined ∨ lookupField "prompt" fields = .str "") →
      fetch env (generationRequest authorization (.obj fields)) =
        ⟨⟨400, .error "Missing or invalid 'prompt' parameter" "invalid_request_error"
          (some "prompt") none⟩, []⟩)
    ∧ ((fetch env (generationRequest authorization (.obj fields))).response.body.errorParam
          = some "prompt" →
        ¬ ∃ p, lookupField "prompt" fields = .str p ∧ p ≠ "") := by
  constructor
  · intro h
    rw [fetch_generationRequest, generations_prompt_rejected env fields h]
  · rintro h ⟨p, hp, hne⟩
    rw [fetch_generationRequest] at h
    cases hfind : findModel SUPPORTED_MODELS
        (((JsVal.obj fields).get "model").orElse (.str "dall-e-3")) with
    | none =>
      cases hshown : jsToString (((JsVal.obj fields).get "model").orElse (.str "dall-e-3")) <;>
        simp [generations, getProp, hp, truthy_of_nonempty hne, JsVal.isStr, hfind, hshown,
          internalError, Body.errorParam] at h
    | some model =>
      simp [generations, getProp, hp, truthy_of_nonempty hne, JsVal.isStr, hfind,
        generate_errorParam] at h

/-- No registry entry has the id `dall-e-3`, the default of line 156. -/
theorem findModel_unknown {value : JsVal}
    (h : ∀ m ∈ SUPPORTED_MODELS, value ≠ .str m.id) :
    findModel SUPPORTED_MODELS (value.orElse (.str "dall-e-3")) = none := by
  simp only [SUPPORTED_MODELS, List.mem_cons, List.mem_singleton, List.not_mem_nil, or_false,
    forall_eq_or_imp, forall_eq] at h
  obtain ⟨h1, h2, h3⟩ := h
  unfold JsVal.orElse
  split
  · cases value <;> simp_all [findModel, SUPPORTED_MODELS, JsVal.isString]
  · rfl

/-- C3, amended.  A generation request with a non-empty string prompt and a
`model` whose value is not the id of a registry entry and is a value that
ToString accepts (as every primitive is) is answered with status 400, type
`invalid_request_error`, param `model` and code `model_not_found`. -/
theorem unknown_model_rejected (env : Env) (authorization : Option String)
    (fields : List (String × JsVal)) (prompt : String)
    (hprompt : lookupField "prompt" fields = .str prompt) (hne : prompt ≠ "")
    (hunknown : ∀ m ∈ SUPPORTED_MODELS, lookupField "model" fields ≠ .str m.id)
    (hplain : (lookupField "model" fields).printable = true) :
    ∃ message, fetch env (generationRequest authorization (.obj fields)) =
      ⟨⟨400, .error message "invalid_request_error" (some "model") (some "model_not_found")⟩,
        []⟩ := by
  have hshown : ∃ shown,
      jsToString ((lookupField "model" fields).orElse (.str "dall-e-3")) = .ok shown := by
    unfold JsVal.orElse
    split
    · exact (printable_iff _).mp hplain
    · exact ⟨_, rfl⟩
  obtain ⟨shown, hshown⟩ := hshown
  refine ⟨"Model '" ++ shown ++ "' not found", ?_⟩
  rw [fetch_generationRequest]
  simp only [generations, getProp, hprompt, truthy_of_nonempty hne, JsVal.isStr, JsVal.get,
    findModel_unknown hunknown, hshown]
  rfl

/-- C4.  A generation request with a prompt and no `model` is answered with
status 400 and code `model_not_found`: the default id `dall-e-3` of line 156
is not the id of an entry of `SUPPORTED_MODELS`, and no provider call is made. -/
theorem default_model_not_registered (env : Env) (authorization : Option String) :
    findModel SUPPORTED_MODELS (.str "dall-e-3") = none
      ∧ fetch env (generationRequest authorization (.obj [("prompt", .str "a cat")])) =
          ⟨⟨400, .error "Model 'dall-e-3' not found" "invalid_request_error" (some "model")
            (some "model_not_found")⟩, []⟩ := by
  constructor
  · rfl
  · rw [fetch_generationRequest]
    rfl


/-- C1, at a request to the FLUX model with `n = 5`: the hypotheses hold there. -/
theorem batch_size_clamped_witness :
    ∃ k data, parseInt (lookupField "n" (sampleFields "flux-1-schnell" (.num (.int 5)) [])) = .ok k
      ∧ (fetch steadyEnv (generationRequest none
          (.obj (sampleFields "flux-1-schnell" (.num (.int 5)) [])))).response
          = ⟨200, .images steadyEnv.now data⟩
      ∧ data.length = specBatchSize k :=
  batch_size_clamped steadyEnv none (sampleFields "flux-1-schnell" (.num (.int 5)) []) fluxSchnell
    "a cat" rfl (by decide) (by decide) rfl (Or.inl rfl) (by decide)
    (fun _ _ => ⟨_, rfl, rfl⟩)

/-- C2, at a request without a prompt: the hypotheses of both parts hold there. -/
theorem prompt_required_witness :
    fetch steadyEnv (generationRequest none (.obj [("model", .str "flux-1-schnell"),
        ("n", .num (.int 2))])) =
        ⟨⟨400, .error "Missing or invalid 'prompt' parameter" "invalid_request_error"
          (some "prompt") none⟩, []⟩
    ∧ ¬ ∃ p, lookupField "prompt" [("model", .str "flux-1-schnell"), ("n", .num (.int 2))]
        = .str p ∧ p ≠ "" :=
  ⟨(prompt_required steadyEnv none _).1 (Or.inl rfl),
    (prompt_required steadyEnv none _).2 rfl⟩

/-- C3, at a request for the model `dall-e-2`: the hypotheses hold there. -/
theorem unknown_model_rejected_witness :
    ∃ message, fetch steadyEnv (generationRequest none
        (.obj (sampleFields "dall-e-2" .undefined []))) =
      ⟨⟨400, .error message "invalid_request_error" (some "model") (some "model_not_found")⟩,
        []⟩ :=
  unknown_model_rejected steadyEnv none (sampleFields "dall-e-2" .undefined []) "a cat" rfl
    (by decide) (by simp [SUPPORTED_MODELS, sampleFields, lookupField]) rfl

/-! ## What the parsed parameters are -/

theorem parseParams_responseFormat {fields : List (String × JsVal)} {model : Model}
    {random : Fin 1000000} {params : Params}
    (h : parseParams (.obj fields) model random = .ok params) :
    params.responseFormat = (lookupField "response_format" fields).orElse (.str "url") := by
  unfold parseParams at h
  simp only [bind, Except.bind, pure, Except.pure, JsVal.get] at h
  repeat' split at h
  all_goals cases h
  all_goals rfl

theorem loopRounds_le (k : JsNum) :
    loopRounds (clamp (k.orElse (.int 1)) (.int 1) (.int 4)) ≤ 4 := by
  cases k with
  | nan => decide
  | int i =>
    by_cases h : i = 0
    · subst h
      decide
    · simp only [JsNum.orElse, JsNum.truthy, clamp, JsNum.max, JsNum.min, loopRounds]
      simp only [bne_iff_ne, ne_eq, h, not_false_eq_true, decide_True, if_true]
      omega

theorem parseParams_n {requestData : JsVal} {model : Model} {random : Fin 1000000}
    {params : Params} (h : parseParams requestData model random = .ok params) :
    ∃ k, parseInt (requestData.get "n") = .ok k
      ∧ params.n = clamp (k.orElse (.int 1)) (.int 1) (.int 4) := by
  unfold parseParams at h
  simp only [bind, Except.bind, pure, Except.pure] at h
  cases hn : parseInt (requestData.get "n") with
  | error message => simp [hn] at h
  | ok k =>
    refine ⟨k, rfl, ?_⟩
    simp only [hn] at h
    repeat' split at h
    all_goals cases h
    all_goals rfl

theorem parseParams_seed {fields : List (String × JsVal)} {model : Model}
    {random : Fin 1000000} {params : Params} {S : Int}
    (h : parseParams (.obj fields) model random = .ok params)
    (hstandard : model.cf_model ≠ "@cf/black-forest-labs/flux-1-schnell")
    (hseed : lookupField "seed" fields = .num (.int S)) (hS : S ≠ 0)
    (hsmall : S.natAbs < 10 ^ 21) :
    ∃ prompt negative_prompt height width num_steps strength guidance,
      params.inputs = .standard prompt negative_prompt height width num_steps strength guidance
        (.int S) := by
  have hparse : parseInt (lookupField "seed" fields) = .ok (.int S) := by
    rw [hseed]
    simp only [parseInt, hsmall, if_true]
  have hkeep : (JsNum.int S).orElse (.int random.val) = .int S := by
    simp [JsNum.orElse, JsNum.truthy, hS]
  unfold parseParams at h
  simp only [bind, Except.bind, pure, Except.pure, JsVal.get, hparse, hkeep, hstandard,
    if_false] at h
  repeat' split at h
  all_goals cases h
  all_goals exact ⟨_, _, _, _, _, _, _, rfl⟩

theorem generate_success {env : Env} {requestData : JsVal} {model : Model} {created : Nat}
    {data : List DataEntry}
    (h : (generate env requestData model).response = ⟨200, .images created data⟩) :
    ∃ params, parseParams requestData model env.random = .ok params ∧
      (generateLoop env.run model.cf_model params.inputs params.responseFormat
        (loopRounds params.n) 0 [] []).1 = .ok data := by
  unfold generate at h
  cases hparams : parseParams requestData model env.random with
  | error message => simp [hparams, aiErrorResponse] at h
  | ok params =>
    refine ⟨params, rfl, ?_⟩
    simp only [hparams] at h
    cases hloop : generateLoop env.run model.cf_model params.inputs params.responseFormat
        (loopRounds params.n) 0 [] [] with
    | mk result calls =>
      cases result with
      | error message => simp [hloop, aiErrorResponse] at h
      | ok results =>
        simp only [hloop, Response.mk.injEq, Body.images.injEq, true_and] at h
        simp [h.2]

theorem fetch_success {env : Env} {authorization : Option String}
    {fields : List (String × JsVal)} {created : Nat} {data : List DataEntry}
    (h : (fetch env (generationRequest authorization (.obj fields))).response
      = ⟨200, .images created data⟩) :
    ∃ model, (generate env (.obj fields) model).response = ⟨200, .images created data⟩ := by
  rw [fetch_generationRequest] at h
  cases hgen : generations env (.obj fields) with
  | error message =>
    rw [hgen] at h
    simp [internalError] at h
  | ok outcome =>
    rw [hgen] at h
    simp only at h
    unfold generations at hgen
    simp only [getProp] at hgen
    split at hgen
    · cases hgen
      simp at h
    · cases hfind : findModel SUPPORTED_MODELS
          (((JsVal.obj fields).get "model").orElse (.str "dall-e-3")) with
      | none =>
        rw [hfind] at hgen
        cases hshown : jsToString (((JsVal.obj fields).get "model").orElse (.str "dall-e-3")) with
        | error message =>
          rw [hshown] at hgen
          cases hgen
        | ok shown =>
          rw [hshown] at hgen
          cases hgen
          simp at h
      | some model =>
        rw [hfind] at hgen
        cases hgen
        exact ⟨model, h⟩

/-! ## Result shaping, seeds and provider failures -/

theorem isString_orElse (f : JsVal) :
    (f.orElse (.str "url")).isString "b64_json" = f.isString "b64_json" := by
  unfold JsVal.orElse
  split
  · rfl
  · rename_i h
    cases f <;> simp_all [JsVal.isString, JsVal.truthy]

theorem shapeResult_string (f : JsVal) (b : String) :
    shapeResult (f.orElse (.str "url")) (.str b) = .ok (specEntry f b) := by
  unfold shapeResult specEntry
  rw [isString_orElse]
  split <;> rfl

/-- C5.  Shaping a base64 string `b` under a `response_format` value `f` never
raises and gives the member `b64_json: b` when `f` is exactly the string
`b64_json`, and `url: data:image/png;base64,b` for every other `f`, absent and
unrecognised ones included; and every entry of the `data` array of a
successful response is the shaping, under the `response_format` of the
request, of the image data of one provider response of the batch. -/
theorem response_format_shaping :
    (∀ (f : JsVal) (b : String),
      shapeResult (f.orElse (.str "url")) (.str b) = .ok (specEntry f b))
    ∧ ∀ (env : Env) (authorization : Option String) (fields : List (String × JsVal))
        (created : Nat) (data : List DataEntry),
        (fetch env (generationRequest authorization (.obj fields))).response
          = ⟨200, .images created data⟩ →
        ∀ entry ∈ data, ∃ model params k output image,
          parseParams (.obj fields) model env.random = .ok params
          ∧ env.run k model.cf_model (localInputs params.inputs k) = .ok output
          ∧ imageDataOf model.cf_model output = .ok image
          ∧ shapeResult ((lookupField "response_format" fields).orElse (.str "url")) image
              = .ok entry
          ∧ ∀ b, image = .str b →
              entry = specEntry (lookupField "response_format" fields) b := by
  refine ⟨shapeResult_string, ?_⟩
  intro env authorization fields created data h entry hentry
  obtain ⟨model, hgen⟩ := fetch_success h
  obtain ⟨params, hparams, hloop⟩ := generate_success hgen
  obtain ⟨entries, hdata, hall⟩ := generateLoop_entries _ _ _ _ _ _ _ _ _ hloop
  rw [hdata, List.nil_append] at hentry
  obtain ⟨k, output, image, hrun, himage, hshape⟩ := hall entry hentry
  rw [parseParams_responseFormat hparams] at hshape
  refine ⟨model, params, k, output, image, hparams, hrun, himage, hshape, ?_⟩
  intro b hb
  rw [hb, shapeResult_string] at hshape
  exact (Except.ok.inj hshape).symm

/-- C5, at a request for two images as `b64_json`: the hypothesis holds there. -/
theorem response_format_shaping_witness :
    (fetch steadyEnv (generationRequest none (.obj (sampleFields "dreamshaper-8-lcm"
        (.num (.int 2)) [("response_format", .str "b64_json")])))).response
      = ⟨200, .images 1700000000 [.b64_json (.str "QUJD"), .b64_json (.str "QUJD")]⟩
    ∧ ∀ entry ∈ [DataEntry.b64_json (.str "QUJD"), .b64_json (.str "QUJD")],
        ∃ model params k output image,
          parseParams (.obj (sampleFields "dreamshaper-8-lcm" (.num (.int 2))
            [("response_format", .str "b64_json")])) model steadyEnv.random = .ok params
          ∧ steadyEnv.run k model.cf_model (localInputs params.inputs k) = .ok output
          ∧ imageDataOf model.cf_model output = .ok image
          ∧ shapeResult ((lookupField "response_format" (sampleFields "dreamshaper-8-lcm"
              (.num (.int 2)) [("response_format", .str "b64_json")])).orElse (.str "url")) image
              = .ok entry
          ∧ ∀ b, image = .str b →
              entry = specEntry (lookupField "response_format" (sampleFields "dreamshaper-8-lcm"
                (.num (.int 2)) [("response_format", .str "b64_json")])) b :=
  ⟨rfl, response_format_shaping.2 steadyEnv none _ 1700000000 _ rfl⟩

theorem roundToDouble_exact {z : Int} (h : z.natAbs < 2 ^ 53) : roundToDouble z = z := by
  unfold roundToDouble
  simp only [h, if_true]

theorem generate_calls (env : Env) (requestData : JsVal) (model : Model) {params : Params}
    (h : parseParams requestData model env.random = .ok params) :
    ∃ m, m ≤ loopRounds params.n
      ∧ (generate env requestData model).calls = batchCalls model.cf_model params.inputs 0 m := by
  obtain ⟨m, hm, hcalls, -⟩ := generateLoop_calls env.run model.cf_model params.inputs
    params.responseFormat (loopRounds params.n) 0 [] []
  refine ⟨m, hm, ?_⟩
  rw [List.nil_append] at hcalls
  unfold generate
  simp only [h]
  rw [← hcalls]
  split <;> simp_all

/-- C6, amended.  For a request to a standard (non-FLUX) model that carries an
explicit integer seed `S` other than zero, the parameter object of the `i`-th
provider call has the seed `S + i`, as long as `S + i` is below `2 ^ 53` in
magnitude (where the sum of Numbers is exact). -/
theorem seed_offsets (env : Env) (authorization : Option String)
    (fields : List (String × JsVal)) (model : Model) (prompt : String) (S : Int)
    (hprompt : lookupField "prompt" fields = .str prompt) (hne : prompt ≠ "")
    (hmodel : model ∈ SUPPORTED_MODELS) (hid : lookupField "model" fields = .str model.id)
    (hstandard : model.cf_model ≠ "@cf/black-forest-labs/flux-1-schnell")
    (hseed : lookupField "seed" fields = .num (.int S)) (hS : S ≠ 0) :
    ∀ (i : Nat) (h : i < (fetch env (generationRequest authorization (.obj fields))).calls.length),
      (S + i).natAbs < 2 ^ 53 →
      ((fetch env (generationRequest authorization (.obj fields))).calls[i]).inputs.seed
        = some (.int (S + i)) := by
  rw [fetch_validated env authorization hprompt hne hmodel hid]
  cases hparams : parseParams (.obj fields) model env.random with
  | error message =>
    intro i h
    simp [generate, hparams] at h
  | ok params =>
    obtain ⟨m, hm, hcalls⟩ := generate_calls env (.obj fields) model hparams
    obtain ⟨k, -, hn⟩ := parseParams_n hparams
    have hfour : loopRounds params.n ≤ 4 := by
      rw [hn]
      exact loopRounds_le k
    rw [hcalls]
    intro i h hsafe
    have hlen : i < m := by
      rw [batchCalls_length] at h
      exact h
    have hsmall : S.natAbs < 10 ^ 21 := by omega
    obtain ⟨p, np, height, width, ns, st, g, hinputs⟩ :=
      parseParams_seed hparams hstandard hseed hS hsmall
    rw [batchCalls_getElem, hinputs]
    simp [localInputs, JsNum.truthy, hS, JsNum.add, Inputs.seed, roundToDouble_exact hsafe]

/-- C6, at a request for three images with seed 7: the hypotheses hold there,
three calls are made, and their seeds are 7, 8 and 9. -/
theorem seed_offsets_witness :
    (fetch steadyEnv (generationRequest none (.obj (sampleFields "dreamshaper-8-lcm" (.num (.int 3)) [("seed", .num (.int 7))])))).calls.map
        (fun call => call.inputs.seed) = [some (.int 7), some (.int 8), some (.int 9)]
    ∧ ∀ (i : Nat) (h : i < (fetch steadyEnv (generationRequest none
          (.obj (sampleFields "dreamshaper-8-lcm" (.num (.int 3)) [("seed", .num (.int 7))])))).calls.length),
        ((7 : Int) + i).natAbs < 2 ^ 53 →
        ((fetch steadyEnv (generationRequest none
          (.obj (sampleFields "dreamshaper-8-lcm" (.num (.int 3)) [("seed", .num (.int 7))])))).calls[i]).inputs.seed
          = some (.int (7 + i)) :=
  ⟨by decide, seed_offsets steadyEnv none (sampleFields "dreamshaper-8-lcm" (.num (.int 3)) [("seed", .num (.int 7))]) dreamshaper
    "a cat" 7 rfl (by decide) (by decide) rfl (by decide) rfl (by decide)⟩

/-- C6 as stated fails for the seed 0: the handler takes the random draw (here
42) in its place, so the three calls carry the seeds 42, 43, 44 and not 0, 1, 2. -/
theorem seed_zero_replaced :
    (fetch steadyEnv (generationRequest none (.obj (sampleFields "dreamshaper-8-lcm" (.num (.int 3)) [("seed", .num (.int 0))])))).calls.map
        (fun call => call.inputs.seed) = [some (.int 42), some (.int 43), some (.int 44)]
    ∧ (fetch steadyEnv (generationRequest none (.obj (sampleFields "dreamshaper-8-lcm" (.num (.int 3)) [("seed", .num (.int 0))])))).calls.map
        (fun call => call.inputs.seed) ≠ [some (.int 0), some (.int 1), some (.int 2)] := by
  decide

/-- C7.  A part of `size` that does not parse as an integer is sent on as `NaN`,
not as 1024: `NaN` is of type number, so `sanitizeDimension` does not take its
default.  For the size `abcxabc` the standard model gets width `NaN` and
height `NaN`. -/
theorem unparsable_dimension_is_nan :
    parseIntStr "abc" = .nan
    ∧ sanitizeDimension (.num (parseIntStr "abc")) = .nan
    ∧ (fetch steadyEnv (generationRequest none (.obj (sampleFields "stable-diffusion-xl" (.num (.int 1)) [("size", .str "abcxabc")])))).calls.map
        (fun call => (call.inputs.width, call.inputs.height)) = [(some .nan, some .nan)] := by
  decide

/-- C10.  In a request that passed validation and whose parameters parsed, when
the provider calls `0, ..., j - 1` each answer an output the handler accepts
and call `j` (below the batch size) raises, the response is the one of the
handler of line 259: status 500, type `server_error`, param `null`, code
`ai_service_error` and no `data`; the provider calls made are those of the
rounds `0, ..., j` and no later one. -/
theorem provider_failure_aborts (env : Env) (authorization : Option String)
    (fields : List (String × JsVal)) (model : Model) (prompt : String) (params : Params)
    (j : Nat) (message : String)
    (hprompt : lookupField "prompt" fields = .str prompt) (hne : prompt ≠ "")
    (hmodel : model ∈ SUPPORTED_MODELS) (hid : lookupField "model" fields = .str model.id)
    (hparams : parseParams (.obj fields) model env.random = .ok params)
    (hj : j < loopRounds params.n)
    (hbefore : ∀ k, k < j → ∃ output entry,
      env.run k model.cf_model (localInputs params.inputs k) = .ok output
      ∧ (imageDataOf model.cf_model output).bind (shapeResult params.responseFormat) = .ok entry)
    (hraise : env.run j model.cf_model (localInputs params.inputs j) = .error message) :
    fetch env (generationRequest authorization (.obj fields))
        = ⟨aiErrorResponse message, batchCalls model.cf_model params.inputs 0 (j + 1)⟩
      ∧ (aiErrorResponse message).status = 500
      ∧ (aiErrorResponse message).body.errorType = some "server_error"
      ∧ (aiErrorResponse message).body.errorParam = none
      ∧ (aiErrorResponse message).body.errorCode = some "ai_service_error"
      ∧ (aiErrorResponse message).body.data = none := by
  refine ⟨?_, rfl, rfl, rfl, rfl, rfl⟩
  rw [fetch_validated env authorization hprompt hne hmodel hid]
  have hloop := generateLoop_raises env.run model.cf_model params.inputs params.responseFormat
    message j (loopRounds params.n) 0 [] [] hj
    (by simpa using hbefore) (by simpa using hraise)
  simp only [generate, hparams, hloop, List.nil_append]

/-- C10, at a request for three images whose second provider call raises: the
hypotheses hold there, and two calls are made. -/
theorem provider_failure_aborts_witness :
    fetch (failingEnv 1 "boom") (generationRequest none (.obj (sampleFields "dreamshaper-8-lcm" (.num (.int 3)) [("seed", .num (.int 7))])))
        = ⟨aiErrorResponse "boom", batchCalls "@cf/lykon/dreamshaper-8-lcm"
            (.standard (.str "a cat") (.str "") (some (.int 1024)) (some (.int 1024)) (.int 20)
              (.fin 8 (-1)) (.fin 75 (-1)) (.int 7)) 0 2⟩
      ∧ (aiErrorResponse "boom").status = 500
      ∧ (aiErrorResponse "boom").body.errorType = some "server_error"
      ∧ (aiErrorResponse "boom").body.errorParam = none
      ∧ (aiErrorResponse "boom").body.errorCode = some "ai_service_error"
      ∧ (aiErrorResponse "boom").body.data = none :=
  provider_failure_aborts (failingEnv 1 "boom") none (sampleFields "dreamshaper-8-lcm" (.num (.int 3)) [("seed", .num (.int 7))])
    dreamshaper "a cat"
    ⟨.int 3, .str "url", .standard (.str "a cat") (.str "") (some (.int 1024)) (some (.int 1024))
      (.int 20) (.fin 8 (-1)) (.fin 75 (-1)) (.int 7)⟩
    1 "boom" rfl (by decide) (by decide) rfl rfl (by decide)
    (fun k hk => by
      obtain rfl : k = 0 := by omega
      exact ⟨_, _, rfl, rfl⟩)
    rfl

/-! ## Every request: where the provider can be called -/

/-- The generation branch raises, or answers a 400 without a provider call, or
hands a validated request to the inner `try`. -/
theorem generations_cases (env : Env) (body : JsVal) :
    (∃ message, generations env body = .error message)
    ∨ (∃ response, generations env body = .ok ⟨response, []⟩ ∧ response.status = 400
        ∧ response.body.data = none ∧ response.body.errorCode ≠ some "ai_service_error")
    ∨ (∃ model, model ∈ SUPPORTED_MODELS
        ∧ generations env body = .ok (generate env body model)) := by
  unfold generations
  cases hprompt : getProp body "prompt" with
  | error message => exact Or.inl ⟨message, rfl⟩
  | ok prompt =>
    simp only
    split
    · exact Or.inr (Or.inl ⟨_, rfl, rfl, rfl, by simp [Body.errorCode]⟩)
    · cases hfind : findModel SUPPORTED_MODELS ((body.get "model").orElse (.str "dall-e-3")) with
      | none =>
        simp only
        cases hshown : jsToString ((body.get "model").orElse (.str "dall-e-3")) with
        | error message => exact Or.inl ⟨message, rfl⟩
        | ok shown => exact Or.inr (Or.inl ⟨_, rfl, rfl, rfl, by simp [Body.errorCode]⟩)
      | some model =>
        exact Or.inr (Or.inr ⟨model, List.mem_of_find?_eq_some hfind, rfl⟩)

/-- The inner `try` answers 200 with a `data` array or the 500 of its handler. -/
theorem generate_cases (env : Env) (requestData : JsVal) (model : Model) :
    (∃ data, (generate env requestData model).response = ⟨200, .images env.now data⟩)
    ∨ (∃ message, (generate env requestData model).response = aiErrorResponse message) := by
  unfold generate
  split
  · exact Or.inr ⟨_, rfl⟩
  · split
    · exact Or.inr ⟨_, rfl⟩
    · exact Or.inl ⟨_, rfl⟩

/-- A denial of the key check is one of the two 401 responses. -/
theorem checkApiKey_denied {apiKeys : List String} {authorization : Option String}
    {denied : Response} (h : checkApiKey apiKeys authorization = some denied) :
    denied = ⟨401, .error "You didn't provide an API key." "invalid_request_error" none none⟩
    ∨ denied = ⟨401, .error "Incorrect API key provided." "invalid_request_error" none
        (some "invalid_api_key")⟩ := by
  unfold checkApiKey at h
  split at h
  · simp only at h
    split at h
    · exact Or.inl (Option.some.inj h).symm
    · split at h
      · exact Or.inr (Option.some.inj h).symm
      · cases h
  · cases h

/-- The routes raise, or answer without a provider call and without a `data`
array, or hand a validated generation request to the inner `try`. -/
theorem route_cases (apiKeys : List String) (env : Env) (request : Request)
    (result : Except String Outcome) (h : route apiKeys env request = result) :
    (∃ message, result = .error message)
    ∨ (∃ response, result = .ok ⟨response, []⟩ ∧ response.body.data = none
        ∧ response.body.errorCode ≠ some "ai_service_error"
        ∧ (checkApiKey apiKeys request.authorization = some response ∨ response.status ≠ 401))
    ∨ (∃ body model, model ∈ SUPPORTED_MODELS ∧ request.json = .ok body
        ∧ result = .ok (generate env body model)) := by
  unfold route at h
  cases hkey : checkApiKey apiKeys request.authorization with
  | some denied =>
    rw [hkey] at h
    subst h
    rcases checkApiKey_denied hkey with rfl | rfl <;>
      exact Or.inr (Or.inl ⟨_, rfl, rfl, by simp [Body.errorCode], Or.inl rfl⟩)
  | none =>
    rw [hkey] at h
    simp only at h
    split at h
    · subst h
      exact Or.inr (Or.inl ⟨_, rfl, rfl, by simp [Body.errorCode], Or.inr (by decide)⟩)
    · split at h
      · cases hjson : request.json with
        | error message =>
          rw [hjson] at h
          exact Or.inl ⟨message, h.symm⟩
        | ok body =>
          rw [hjson] at h
          simp only at h
          subst h
          rcases generations_cases env body with ⟨message, h⟩
            | ⟨response, h, hstatus, hdata, hcode⟩ | ⟨model, hmodel, h⟩
          · exact Or.inl ⟨message, h⟩
          · exact Or.inr (Or.inl ⟨response, h, hdata, hcode, Or.inr (by omega)⟩)
          · exact Or.inr (Or.inr ⟨body, model, hmodel, rfl, h⟩)
      · split at h
        · subst h
          exact Or.inr (Or.inl ⟨_, rfl, rfl, by simp [Body.errorCode], Or.inr (by decide)⟩)
        · split at h
          · subst h
            exact Or.inr (Or.inl ⟨_, rfl, rfl, by simp [Body.errorCode], Or.inr (by decide)⟩)
          · split at h
            · subst h
              exact Or.inr (Or.inl ⟨_, rfl, rfl, by simp [Body.errorCode], Or.inr (by decide)⟩)
            · subst h
              exact Or.inr (Or.inl ⟨_, rfl, rfl, by simp [Body.errorCode], Or.inr (by decide)⟩)

/-- A request is answered without a provider call and without a `data` array,
or it is a generation request that passed validation and is answered by the
inner `try`. -/
theorem fetchWith_cases (apiKeys : List String) (env : Env) (request : Request) :
    ((fetchWith apiKeys env request).calls = []
        ∧ (fetchWith apiKeys env request).response.body.data = none
        ∧ (fetchWith apiKeys env request).response.body.errorCode ≠ some "ai_service_error")
    ∨ (∃ body model, model ∈ SUPPORTED_MODELS ∧ request.json = .ok body
        ∧ fetchWith apiKeys env request = generate env body model) := by
  unfold fetchWith
  split
  · exact Or.inl ⟨rfl, rfl, by simp [Body.errorCode]⟩
  · rcases route_cases apiKeys env request _ rfl with ⟨message, h⟩
      | ⟨response, h, hdata, hcode, -⟩ | ⟨body, model, hmodel, hjson, h⟩
    · rw [h]
      exact Or.inl ⟨rfl, rfl, by simp [internalError, Body.errorCode]⟩
    · rw [h]
      exact Or.inl ⟨rfl, hdata, hcode⟩
    · rw [h]
      exact Or.inr ⟨body, model, hmodel, hjson, rfl⟩

/-! ## Calls and results of a successful batch -/

/-- When the loop ends with results it has made the calls of all its rounds, in
order, and the entry added in a round is the shaping of the image data of the
response of that round. -/
theorem generateLoop_indexed (run : Nat → String → Inputs → Except String RawOutput)
    (cfModel : String) (inputs : Inputs) (responseFormat : JsVal) :
    ∀ (rounds i : Nat) (results : List DataEntry) (calls calls' : List Call)
      (data : List DataEntry),
      generateLoop run cfModel inputs responseFormat rounds i results calls = (.ok data, calls') →
      calls' = calls ++ batchCalls cfModel inputs i rounds
      ∧ ∃ entries, data = results ++ entries ∧ entries.length = rounds
        ∧ ∀ (k : Nat) (hk : k < entries.length), ∃ output image,
            run (i + k) cfModel (localInputs inputs (i + k)) = .ok output
            ∧ imageDataOf cfModel output = .ok image
            ∧ shapeResult responseFormat image = .ok entries[k] := by
  intro rounds
  induction rounds with
  | zero =>
    intro i results calls calls' data h
    simp only [generateLoop, Prod.mk.injEq, Except.ok.injEq] at h
    obtain ⟨rfl, rfl⟩ := h
    exact ⟨by simp [batchCalls], [], by simp, rfl, fun k hk => absurd hk (by simp)⟩
  | succ rounds ih =>
    intro i results calls calls' data h
    unfold generateLoop at h
    cases hrun : run i cfModel (localInputs inputs i) with
    | error message => simp [hrun] at h
    | ok response =>
      cases himage : imageDataOf cfModel response with
      | error message => simp [hrun, himage, Except.bind] at h
      | ok image =>
        cases hshape : shapeResult responseFormat image with
        | error message => simp [hrun, himage, hshape, Except.bind] at h
        | ok entry =>
          simp only [hrun, himage, hshape, Except.bind] at h
          obtain ⟨hcalls, entries, hdata, hlen, hall⟩ := ih _ _ _ _ _ h
          refine ⟨?_, entry :: entries, by simp [hdata], by simp [hlen], ?_⟩
          · simp only [hcalls, batchCalls_succ, List.append_assoc, List.singleton_append]
          · intro k hk
            cases k with
            | zero => exact ⟨response, image, hrun, himage, hshape⟩
            | succ k =>
              obtain ⟨output, image', h1, h2, h3⟩ :=
                hall k (by simpa using hk)
              refine ⟨output, image', ?_, h2, ?_⟩
              · rwa [show i + (k + 1) = i + 1 + k by omega]
              · simpa using h3

/-- C11.  A request answered with status 400 made no provider call; and a
request answered with a success is a generation request whose parameters
parsed, for which the provider was called exactly `n` times, `n` the clamped
batch size, with the parameters of the rounds `0, ..., n - 1` in this order,
and whose `data` has `n` entries, the entry of index `i` being the shaping of
the image data of the response of call `i`. -/
theorem validation_precedes_dispatch (env : Env) (request : Request) :
    ((fetch env request).response.status = 400 → (fetch env request).calls = [])
    ∧ ∀ (created : Nat) (data : List DataEntry),
        (fetch env request).response = ⟨200, .images created data⟩ →
        ∃ body model params k,
          request.json = .ok body
          ∧ parseParams body model env.random = .ok params
          ∧ parseInt (body.get "n") = .ok k
          ∧ (fetch env request).calls
              = batchCalls model.cf_model params.inputs 0 (specBatchSize k)
          ∧ data.length = specBatchSize k
          ∧ ∀ (i : Nat) (hi : i < data.length), ∃ output image,
              env.run i model.cf_model (localInputs params.inputs i) = .ok output
              ∧ imageDataOf model.cf_model output = .ok image
              ∧ shapeResult params.responseFormat image = .ok data[i] := by
  unfold fetch
  rcases fetchWith_cases API_KEYS env request with ⟨hcalls, hdata, -⟩
    | ⟨body, model, -, hjson, hfetch⟩
  · refine ⟨fun _ => hcalls, ?_⟩
    intro created data h
    rw [h] at hdata
    cases hdata
  · rw [hfetch]
    constructor
    · intro hstatus
      rcases generate_cases env body model with ⟨data, h⟩ | ⟨message, h⟩ <;>
        simp [h, aiErrorResponse] at hstatus
    · intro created data h
      obtain ⟨params, hparams, hloop⟩ := generate_success h
      obtain ⟨k, hk, hn⟩ := parseParams_n hparams
      cases hpair : generateLoop env.run model.cf_model params.inputs params.responseFormat
          (loopRounds params.n) 0 [] [] with
      | mk result calls =>
        rw [hpair] at hloop
        simp only at hloop
        subst hloop
        obtain ⟨hcalls, entries, hdata, hlen, hall⟩ := generateLoop_indexed _ _ _ _ _ _ _ _ _ _ hpair
        rw [List.nil_append] at hcalls hdata
        subst hdata
        rw [hn, loopRounds_clamp] at hlen hcalls
        refine ⟨body, model, params, k, hjson, hparams, hk, ?_, hlen, ?_⟩
        · simp only [generate, hparams, hpair, hcalls]
        · intro i hi
          simpa using hall i hi

/-- C11, at a request without a prompt (answered 400) and at a request for two
images (answered with a success): the hypotheses hold there. -/
theorem validation_precedes_dispatch_witness :
    (fetch steadyEnv (generationRequest none (.obj [("n", .num (.int 3))]))).calls = []
    ∧ ∃ body model params k,
        (generationRequest none (.obj (sampleFields "dreamshaper-8-lcm" (.num (.int 2)) []))).json
          = .ok body
        ∧ parseParams body model steadyEnv.random = .ok params
        ∧ parseInt (body.get "n") = .ok k
        ∧ (fetch steadyEnv (generationRequest none
            (.obj (sampleFields "dreamshaper-8-lcm" (.num (.int 2)) [])))).calls
            = batchCalls model.cf_model params.inputs 0 (specBatchSize k)
        ∧ [DataEntry.url "data:image/png;base64,QUJD", .url "data:image/png;base64,QUJD"].length
            = specBatchSize k
        ∧ ∀ (i : Nat) (hi : i < [DataEntry.url "data:image/png;base64,QUJD",
              .url "data:image/png;base64,QUJD"].length), ∃ output image,
            steadyEnv.run i model.cf_model (localInputs params.inputs i) = .ok output
            ∧ imageDataOf model.cf_model output = .ok image
            ∧ shapeResult params.responseFormat image
                = .ok [DataEntry.url "data:image/png;base64,QUJD",
                    .url "data:image/png;base64,QUJD"][i] :=
  ⟨(validation_precedes_dispatch steadyEnv _).1 rfl,
    (validation_precedes_dispatch steadyEnv _).2 1700000000 _ rfl⟩

/-! ## The model list, the routes and the key check -/

/-- C12.  The answer to `GET /v1/models` is status 200 with the body
`object: list` and, as `data`, one entry for each registry entry, in registry
order, made of the `id`, `object`, `created` and `owned_by` of that entry;
two registries that agree in everything but their `cf_model` values give the
same `data`, so no provider reference is in the payload. -/
theorem model_list_payload (env : Env) (authorization : Option String)
    (json : Except String JsVal) :
    fetch env ⟨"GET", "/v1/models", authorization, json⟩
        = ⟨⟨200, .modelList "list" (listModels SUPPORTED_MODELS)⟩, []⟩
    ∧ (∀ (registry : List Model), (listModels registry).length = registry.length
        ∧ ∀ i : Nat, (listModels registry)[i]?
            = registry[i]?.map (fun m => (⟨m.id, m.object, m.created, m.owned_by⟩ : ModelInfo)))
    ∧ (∀ (first second : List Model),
        List.Forall₂ (fun a b => a.id = b.id ∧ a.object = b.object ∧ a.created = b.created
          ∧ a.owned_by = b.owned_by ∧ a.max_size = b.max_size
          ∧ a.supports_prompt_only = b.supports_prompt_only) first second →
        listModels first = listModels second) := by
  refine ⟨?_, ?_, ?_⟩
  · simp [fetch, fetchWith, route, checkApiKey, API_KEYS]
  · intro registry
    exact ⟨by simp [listModels], fun i => by simp [listModels]⟩
  · intro first second h
    induction h with
    | nil => rfl
    | cons hab _ ih =>
      obtain ⟨h1, h2, h3, h4, -, -⟩ := hab
      simp only [listModels, List.map_cons, List.cons.injEq, ModelInfo.mk.injEq]
      exact ⟨⟨h1, h2, h3, h4⟩, ih⟩

/-- C12, at the shipped registry and a copy of it with other provider
references: the hypothesis holds there. -/
theorem model_list_payload_witness :
    listModels SUPPORTED_MODELS
      = listModels (SUPPORTED_MODELS.map (fun m => { m with cf_model := "@cf/other" })) :=
  (model_list_payload steadyEnv none (.ok .null)).2.2 _ _ (by simp [SUPPORTED_MODELS])

/-- C13, amended.  With the shipped (empty) allow-list, a request that is not an
`OPTIONS` request, not `GET /v1/models`, not a `POST` to
`/v1/images/generations`, `/v1/images/edits` or `/v1/images/variations`, and
whose path is not `/`, is answered with status 404, message `Not Found`, type
`invalid_request_error` and code `not_found`. -/
theorem unknown_route_not_found (env : Env) (request : Request)
    (hoptions : request.method ≠ "OPTIONS")
    (hmodels : ¬ (request.path = "/v1/models" ∧ request.method = "GET"))
    (hgenerations : ¬ (request.path = "/v1/images/generations" ∧ request.method = "POST"))
    (hedits : ¬ (request.path = "/v1/images/edits" ∧ request.method = "POST"))
    (hvariations : ¬ (request.path = "/v1/images/variations" ∧ request.method = "POST"))
    (hroot : request.path ≠ "/") :
    fetch env request
      = ⟨⟨404, .error "Not Found" "invalid_request_error" none (some "not_found")⟩, []⟩ := by
  simp only [fetch, fetchWith, hoptions, if_false, route, checkApiKey, API_KEYS, List.length_nil,
    gt_iff_lt, lt_self_iff_false, Bool.and_eq_true, decide_eq_true_eq, hmodels, hgenerations,
    hedits, hvariations, hroot]

/-- C13, at `DELETE /v1/models`: the hypotheses hold there. -/
theorem unknown_route_not_found_witness :
    fetch steadyEnv ⟨"DELETE", "/v1/models", none, .ok .null⟩
      = ⟨⟨404, .error "Not Found" "invalid_request_error" none (some "not_found")⟩, []⟩ :=
  unknown_route_not_found steadyEnv ⟨"DELETE", "/v1/models", none, .ok .null⟩
    (by decide) (by decide) (by decide) (by decide) (by decide) (by decide)

/-- C13 as stated fails for `POST /`: the branch of the path `/` does not look at
the method, so the request, which is none of the listed ones, is answered
with status 200 and the service description. -/
theorem post_root_is_answered :
    (fetch steadyEnv ⟨"POST", "/", none, .ok .null⟩).response.status = 200
    ∧ (fetch steadyEnv ⟨"POST", "/", none, .ok .null⟩).response.status ≠ 404
    ∧ (fetch steadyEnv ⟨"POST", "/", none, .ok .null⟩).response.body.errorCode = none := by
  decide

theorem bearer_data (key : String) : ("Bearer " ++ key).data = "Bearer ".data ++ key.data :=
  String.data_append _ _

theorem checkApiKey_bearer {apiKeys : List String} (hkeys : apiKeys ≠ []) (key : String) :
    checkApiKey apiKeys (some ("Bearer " ++ key)) =
      if key ∈ apiKeys then none
      else some ⟨401, .error "Incorrect API key provided." "invalid_request_error" none
        (some "invalid_api_key")⟩ := by
  have hlen : apiKeys.length > 0 := List.length_pos.mpr hkeys
  have hne : (("Bearer " ++ key) == "") = false := by
    rw [beq_eq_false_iff_ne]
    intro h
    have := congrArg String.data h
    rw [bearer_data] at this
    simp at this
  have hprefix : "Bearer ".data.isPrefixOf ("Bearer " ++ key).data = true := by
    rw [bearer_data]
    simp
  have hdrop : String.mk (("Bearer " ++ key).data.drop 7) = key := by
    rw [bearer_data]
    rfl
  simp only [checkApiKey, hlen, if_true, Option.getD_some, hne, hprefix, Bool.not_true,
    Bool.or_self, Bool.false_eq_true, if_false, hdrop]
  by_cases hmem : key ∈ apiKeys <;> simp [hmem]

theorem checkApiKey_missing {apiKeys : List String} (hkeys : apiKeys ≠ [])
    {authorization : Option String}
    (h : authorization = none ∨ ∃ header, authorization = some header
      ∧ ¬ ∃ key, header = "Bearer " ++ key) :
    checkApiKey apiKeys authorization =
      some ⟨401, .error "You didn't provide an API key." "invalid_request_error" none none⟩ := by
  have hlen : apiKeys.length > 0 := List.length_pos.mpr hkeys
  rcases h with rfl | ⟨header, rfl, hno⟩
  · simp [checkApiKey, hlen]
  · have hprefix : "Bearer ".data.isPrefixOf header.data = false := by
      rw [Bool.eq_false_iff]
      intro hp
      obtain ⟨rest, hrest⟩ := List.isPrefixOf_iff_prefix.mp hp
      exact hno ⟨String.mk rest, String.ext (by rw [bearer_data, ← hrest])⟩
    simp [checkApiKey, hlen, hprefix]

theorem fetchWith_denied {apiKeys : List String} (env : Env) {request : Request}
    {denied : Response} (hoptions : request.method ≠ "OPTIONS")
    (h : checkApiKey apiKeys request.authorization = some denied) :
    fetchWith apiKeys env request = ⟨denied, []⟩ := by
  simp [fetchWith, hoptions, route, h]

theorem fetchWith_admitted {apiKeys : List String} (env : Env) {request : Request}
    (h : checkApiKey apiKeys request.authorization = none) :
    fetchWith apiKeys env request = fetchWith [] env request := by
  have hempty : checkApiKey [] request.authorization = none := by simp [checkApiKey]
  simp only [fetchWith, route, h, hempty]

/-- C14.  Over a non-empty allow-list and for a request that is not `OPTIONS`: a
missing `Authorization` header, or one that does not start with `Bearer `,
gives 401 with type `invalid_request_error` and code `null`; `Bearer `
followed by a key that is not in the list gives 401 with code
`invalid_api_key`; and with a key of the list the outcome is the one the same
request has under the empty allow-list.  Under the empty allow-list no
request is answered 401. -/
theorem api_key_check (apiKeys : List String) (env : Env) (request : Request) :
    (apiKeys ≠ [] → request.method ≠ "OPTIONS" →
      ((request.authorization = none ∨ ∃ header, request.authorization = some header
          ∧ ¬ ∃ key, header = "Bearer " ++ key) →
        fetchWith apiKeys env request
          = ⟨⟨401, .error "You didn't provide an API key." "invalid_request_error" none none⟩,
              []⟩)
      ∧ (∀ key, request.authorization = some ("Bearer " ++ key) → key ∉ apiKeys →
        fetchWith apiKeys env request
          = ⟨⟨401, .error "Incorrect API key provided." "invalid_request_error" none
              (some "invalid_api_key")⟩, []⟩)
      ∧ (∀ key, request.authorization = some ("Bearer " ++ key) → key ∈ apiKeys →
        fetchWith apiKeys env request = fetchWith [] env request))
    ∧ (fetchWith [] env request).response.status ≠ 401 := by
  constructor
  · intro hkeys hoptions
    refine ⟨?_, ?_, ?_⟩
    · intro h
      exact fetchWith_denied env hoptions (checkApiKey_missing hkeys h)
    · intro key hauth hmem
      apply fetchWith_denied env hoptions
      rw [hauth, checkApiKey_bearer hkeys, if_neg hmem]
    · intro key hauth hmem
      apply fetchWith_admitted
      rw [hauth, checkApiKey_bearer hkeys, if_pos hmem]
  · unfold fetchWith
    split
    · decide
    · rcases route_cases [] env request _ rfl with ⟨message, h⟩
        | ⟨response, h, -, -, hstatus⟩ | ⟨body, model, -, -, h⟩
      · rw [h]
        simp [internalError]
      · rw [h]
        rcases hstatus with hkey | hstatus
        · simp [checkApiKey] at hkey
        · exact hstatus
      · rw [h]
        rcases generate_cases env body model with ⟨data, hg⟩ | ⟨message, hg⟩ <;>
          simp [hg, aiErrorResponse]

/-- C14, over the allow-list with the one key `Test`, at requests with no
header, with an unlisted key and with the listed key: the hypotheses hold
there. -/
theorem api_key_check_witness :
    fetchWith ["Test"] steadyEnv ⟨"GET", "/v1/models", none, .ok .null⟩
        = ⟨⟨401, .error "You didn't provide an API key." "invalid_request_error" none none⟩, []⟩
    ∧ fetchWith ["Test"] steadyEnv ⟨"GET", "/v1/models", some ("Bearer " ++ "Other"), .ok .null⟩
        = ⟨⟨401, .error "Incorrect API key provided." "invalid_request_error" none
            (some "invalid_api_key")⟩, []⟩
    ∧ fetchWith ["Test"] steadyEnv ⟨"GET", "/v1/models", some ("Bearer " ++ "Test"), .ok .null⟩
        = fetchWith [] steadyEnv ⟨"GET", "/v1/models", some ("Bearer " ++ "Test"), .ok .null⟩ :=
  ⟨((api_key_check ["Test"] steadyEnv ⟨"GET", "/v1/models", none, .ok .null⟩).1
      (by decide) (by decide)).1 (Or.inl rfl),
    ((api_key_check ["Test"] steadyEnv
      ⟨"GET", "/v1/models", some ("Bearer " ++ "Other"), .ok .null⟩).1
      (by decide) (by decide)).2.1 "Other" rfl (by decide),
    ((api_key_check ["Test"] steadyEnv
      ⟨"GET", "/v1/models", some ("Bearer " ++ "Test"), .ok .null⟩).1
      (by decide) (by decide)).2.2 "Test" rfl (by decide)⟩

/-! ## The dispatched parameters -/

/-- The provider calls of a validated request carry the parsed parameters, each
with the offset of its round. -/
theorem calls_of_validated (env : Env) (authorization : Option String)
    {fields : List (String × JsVal)} {model : Model} {prompt : String}
    (hprompt : lookupField "prompt" fields = .str prompt) (hne : prompt ≠ "")
    (hmodel : model ∈ SUPPORTED_MODELS) (hid : lookupField "model" fields = .str model.id) :
    ∀ call ∈ (fetch env (generationRequest authorization (.obj fields))).calls,
      ∃ params i, parseParams (.obj fields) model env.random = .ok params
        ∧ call = ⟨model.cf_model, localInputs params.inputs i⟩ := by
  rw [fetch_validated env authorization hprompt hne hmodel hid]
  cases hparams : parseParams (.obj fields) model env.random with
  | error message =>
    intro call hcall
    simp [generate, hparams] at hcall
  | ok params =>
    obtain ⟨m, -, hcalls⟩ := generate_calls env (.obj fields) model hparams
    rw [hcalls]
    intro call hcall
    simp only [batchCalls, List.mem_map] at hcall
    obtain ⟨i, -, rfl⟩ := hcall
    exact ⟨params, i, rfl, rfl⟩

theorem clamp_orElse_num_steps (k : JsNum) :
    clamp (k.orElse (.int 20)) (.int 1) (.int 50) = .int (specNumSteps k) := by
  cases k with
  | nan => rfl
  | int v =>
    by_cases h : v = 0
    · subst h
      rfl
    · simp [JsNum.orElse, JsNum.truthy, h, clamp, JsNum.max, JsNum.min, specNumSteps, specClamp]

theorem clamp_orElse_steps (k : JsNum) :
    clamp (k.orElse (.int 6)) (.int 4) (.int 8) = .int (specSteps k) := by
  cases k with
  | nan => rfl
  | int v =>
    by_cases h : v = 0
    · subst h
      rfl
    · simp [JsNum.orElse, JsNum.truthy, h, clamp, JsNum.max, JsNum.min, specSteps, specClamp]

theorem localInputs_num_steps (inputs : Inputs) (i : Nat) :
    (localInputs inputs i).num_steps = inputs.num_steps := by
  cases inputs with
  | flux prompt steps => rfl
  | standard p np h w ns st g seed =>
    simp only [localInputs]
    split <;> rfl

theorem parseParams_standard {fields : List (String × JsVal)} {model : Model}
    {random : Fin 1000000} {params : Params}
    (h : parseParams (.obj fields) model random = .ok params)
    (hstandard : model.cf_model ≠ "@cf/black-forest-labs/flux-1-schnell") :
    ∃ k negative_prompt height width strength guidance seed,
      parseInt (lookupField "num_steps" fields) = .ok k
      ∧ params.inputs = .standard (lookupField "prompt" fields) negative_prompt height width
          (.int (specNumSteps k)) strength guidance seed := by
  unfold parseParams at h
  simp only [bind, Except.bind, pure, Except.pure, JsVal.get, hstandard, if_false] at h
  cases hk : parseInt (lookupField "num_steps" fields) with
  | error message =>
    simp only [hk] at h
    repeat' split at h
    all_goals cases h
  | ok k =>
    simp only [hk, clamp_orElse_num_steps] at h
    repeat' split at h
    all_goals cases h
    all_goals exact ⟨k, _, _, _, _, _, _, rfl, rfl⟩

theorem parseParams_flux {fields : List (String × JsVal)} {model : Model}
    {random : Fin 1000000} {params : Params}
    (h : parseParams (.obj fields) model random = .ok params)
    (hflux : model.cf_model = "@cf/black-forest-labs/flux-1-schnell") :
    ∃ k, parseInt (lookupField "steps" fields) = .ok k
      ∧ params.inputs = .flux (lookupField "prompt" fields) (.int (specSteps k)) := by
  unfold parseParams at h
  simp only [bind, Except.bind, pure, Except.pure, JsVal.get, hflux, if_true] at h
  cases hk : parseInt (lookupField "steps" fields) with
  | error message =>
    simp only [hk] at h
    repeat' split at h
    all_goals cases h
  | ok k =>
    simp only [hk, clamp_orElse_steps] at h
    repeat' split at h
    all_goals cases h
    all_goals exact ⟨k, rfl, rfl⟩

/-- C15, amended.  For a request to a standard (non-FLUX) model whose `num_steps`
parses to `k`, every provider call carries `num_steps = clamp(v, 1, 50)` when
`k` is an integer `v` other than zero, and the default 20 when the field is
absent, does not parse as a number, or is zero. -/
theorem num_steps_dispatched (env : Env) (authorization : Option String)
    (fields : List (String × JsVal)) (model : Model) (prompt : String) (k : JsNum)
    (hprompt : lookupField "prompt" fields = .str prompt) (hne : prompt ≠ "")
    (hmodel : model ∈ SUPPORTED_MODELS) (hid : lookupField "model" fields = .str model.id)
    (hstandard : model.cf_model ≠ "@cf/black-forest-labs/flux-1-schnell")
    (hparse : parseInt (lookupField "num_steps" fields) = .ok k) :
    ∀ call ∈ (fetch env (generationRequest authorization (.obj fields))).calls,
      call.inputs.num_steps = some (.int (specNumSteps k)) := by
  intro call hcall
  obtain ⟨params, i, hparams, rfl⟩ :=
    calls_of_validated env authorization hprompt hne hmodel hid call hcall
  obtain ⟨k', np, height, width, st, g, seed, hk', hinputs⟩ :=
    parseParams_standard hparams hstandard
  rw [hparse] at hk'
  cases hk'
  rw [localInputs_num_steps, hinputs]
  rfl

/-- C15, at a request with `num_steps = 70`: the hypotheses hold there, a call is
made and it carries `num_steps = 50`. -/
theorem num_steps_dispatched_witness :
    (fetch steadyEnv (generationRequest none (.obj (sampleFields "dreamshaper-8-lcm"
        (.num (.int 1)) [("num_steps", .num (.int 70))])))).calls.map
        (fun call => call.inputs.num_steps) = [some (.int 50)]
    ∧ ∀ call ∈ (fetch steadyEnv (generationRequest none (.obj (sampleFields "dreamshaper-8-lcm"
        (.num (.int 1)) [("num_steps", .num (.int 70))])))).calls,
        call.inputs.num_steps = some (.int (specNumSteps (.int 70))) :=
  ⟨by decide, num_steps_dispatched steadyEnv none
    (sampleFields "dreamshaper-8-lcm" (.num (.int 1)) [("num_steps", .num (.int 70))])
    dreamshaper "a cat" (.int 70) rfl (by decide) (by decide) rfl (by decide) rfl⟩

/-- C15 as stated fails for `num_steps = 0`, which parses as the integer 0: the
call carries the default 20, and not `clamp(0, 1, 50) = 1`. -/
theorem num_steps_zero_defaulted :
    parseInt (.num (.int 0)) = .ok (.int 0)
    ∧ (fetch steadyEnv (generationRequest none (.obj (sampleFields "dreamshaper-8-lcm"
        (.num (.int 1)) [("num_steps", .num (.int 0))])))).calls.map
        (fun call => call.inputs.num_steps) = [some (.int 20)]
    ∧ (fetch steadyEnv (generationRequest none (.obj (sampleFields "dreamshaper-8-lcm"
        (.num (.int 1)) [("num_steps", .num (.int 0))])))).calls.map
        (fun call => call.inputs.num_steps) ≠ [some (.int (specClamp 0 1 50))] :=
  ⟨rfl, by decide, by decide⟩

theorem localInputs_flux (prompt : JsVal) (steps : JsNum) (i : Nat) :
    localInputs (.flux prompt steps) i = .flux prompt steps := rfl

theorem localInputs_keys (inputs : Inputs) (i : Nat) :
    (localInputs inputs i).keys = inputs.keys := by
  cases inputs with
  | flux prompt steps => rfl
  | standard p np h w ns st g seed =>
    simp only [localInputs]
    split <;> rfl

/-- C17, amended.  The shape of the provider parameters is selected by the
provider reference of the registry entry: for the entry whose `cf_model` is
the FLUX reference every call receives exactly the two-field object of the
prompt and `steps`, with `steps = clamp(v, 4, 8)` for a parsed integer `v`
other than zero and 6 otherwise; for every other entry every call receives
the object of the eight fields `prompt`, `negative_prompt`, `height`, `width`,
`num_steps`, `strength`, `guidance`, `seed`. -/
theorem inputs_shape_by_provider (env : Env) (authorization : Option String)
    (fields : List (String × JsVal)) (model : Model) (prompt : String)
    (hprompt : lookupField "prompt" fields = .str prompt) (hne : prompt ≠ "")
    (hmodel : model ∈ SUPPORTED_MODELS) (hid : lookupField "model" fields = .str model.id) :
    ∀ call ∈ (fetch env (generationRequest authorization (.obj fields))).calls,
      call.model = model.cf_model
      ∧ (model.cf_model = "@cf/black-forest-labs/flux-1-schnell" →
          ∃ k, parseInt (lookupField "steps" fields) = .ok k
            ∧ call.inputs = .flux (.str prompt) (.int (specSteps k)))
      ∧ (model.cf_model ≠ "@cf/black-forest-labs/flux-1-schnell" →
          call.inputs.keys = ["prompt", "negative_prompt", "height", "width", "num_steps",
            "strength", "guidance", "seed"]) := by
  intro call hcall
  obtain ⟨params, i, hparams, rfl⟩ :=
    calls_of_validated env authorization hprompt hne hmodel hid call hcall
  refine ⟨rfl, ?_, ?_⟩
  · intro hflux
    obtain ⟨k, hk, hinputs⟩ := parseParams_flux hparams hflux
    exact ⟨k, hk, by rw [hinputs, localInputs_flux, hprompt]⟩
  · intro hstandard
    obtain ⟨k, np, height, width, st, g, seed, -, hinputs⟩ :=
      parseParams_standard hparams hstandard
    rw [localInputs_keys, hinputs]
    rfl

/-- C17, at a request to the FLUX model with `steps = 9`: the hypotheses hold
there, a call is made and it carries `steps = 8`. -/
theorem inputs_shape_by_provider_witness :
    (fetch steadyEnv (generationRequest none (.obj (sampleFields "flux-1-schnell"
        (.num (.int 1)) [("steps", .num (.int 9))])))).calls.map
        (fun call => (call.inputs.keys, call.inputs.steps)) = [(["prompt", "steps"], some (.int 8))]
    ∧ ∀ call ∈ (fetch steadyEnv (generationRequest none (.obj (sampleFields "flux-1-schnell"
        (.num (.int 1)) [("steps", .num (.int 9))])))).calls,
      call.model = fluxSchnell.cf_model
      ∧ (fluxSchnell.cf_model = "@cf/black-forest-labs/flux-1-schnell" →
          ∃ k, parseInt (lookupField "steps" (sampleFields "flux-1-schnell"
              (.num (.int 1)) [("steps", .num (.int 9))])) = .ok k
            ∧ call.inputs = .flux (.str "a cat") (.int (specSteps k)))
      ∧ (fluxSchnell.cf_model ≠ "@cf/black-forest-labs/flux-1-schnell" →
          call.inputs.keys = ["prompt", "negative_prompt", "height", "width", "num_steps",
            "strength", "guidance", "seed"]) :=
  ⟨by decide, inputs_shape_by_provider steadyEnv none
    (sampleFields "flux-1-schnell" (.num (.int 1)) [("steps", .num (.int 9))])
    fluxSchnell "a cat" rfl (by decide) (by decide) rfl⟩

/-- C17 as stated fails for the entry `dreamshaper-8-lcm`: its flag
`supports_prompt_only` is set, as it is on every entry of the registry, and
the provider receives the eight-field object. -/
theorem prompt_only_flag_unused :
    dreamshaper ∈ SUPPORTED_MODELS ∧ dreamshaper.supports_prompt_only = true
    ∧ (∀ model ∈ SUPPORTED_MODELS, model.supports_prompt_only = true)
    ∧ (fetch steadyEnv (generationRequest none (.obj (sampleFields "dreamshaper-8-lcm"
        (.num (.int 1)) [])))).calls.map (fun call => call.inputs.keys)
        = [["prompt", "negative_prompt", "height", "width", "num_steps", "strength",
            "guidance", "seed"]]
    ∧ (fetch steadyEnv (generationRequest none (.obj (sampleFields "dreamshaper-8-lcm"
        (.num (.int 1)) [])))).calls.map (fun call => call.inputs.keys)
        ≠ [["prompt", "steps"]] := by
  decide

/-- C18.  With no `seed` in the request and the random draw 0, the base seed is
0, the guard of line 209 skips the offset, and both calls of a batch of two
carry the seed 0. -/
theorem zero_draw_repeats_seed :
    (fetch zeroDrawEnv (generationRequest none (.obj (sampleFields "dreamshaper-8-lcm"
        (.num (.int 2)) [])))).calls.map (fun call => call.inputs.seed)
      = [some (.int 0), some (.int 0)] := by
  decide

/-- C20.  A request with a non-empty string prompt, a registered model and the
number 512 as `size`, to a provider whose every call would answer well-formed
output, is answered with status 500 and code `ai_service_error`, and no
provider call is made: `size.split` raises inside the inner `try`. -/
theorem numeric_size_fails_request :
    (∀ i params, ∃ output, steadyEnv.run i dreamshaper.cf_model params = .ok output
      ∧ wellFormed dreamshaper.cf_model output = true)
    ∧ (fetch steadyEnv (generationRequest none (.obj (sampleFields "dreamshaper-8-lcm"
        (.num (.int 1)) [("size", .num (.int 512))])))).response.status = 500
    ∧ (fetch steadyEnv (generationRequest none (.obj (sampleFields "dreamshaper-8-lcm"
        (.num (.int 1)) [("size", .num (.int 512))])))).response.body.errorCode
        = some "ai_service_error"
    ∧ (fetch steadyEnv (generationRequest none (.obj (sampleFields "dreamshaper-8-lcm"
        (.num (.int 1)) [("size", .num (.int 512))])))).response.body.errorMessage
        = some "Image generation failed: size.split is not a function"
    ∧ (fetch steadyEnv (generationRequest none (.obj (sampleFields "dreamshaper-8-lcm"
        (.num (.int 1)) [("size", .num (.int 512))])))).calls.length = 0 :=
  ⟨fun _ _ => ⟨_, rfl, rfl⟩, by decide, by decide, by decide, by decide⟩

/-! ## A FLUX response without an image -/

/-- When the rounds before round `j` go through and the handler rejects the
response of round `j`, the loop ends there with the message of the rejection,
after the calls of the rounds `0, ..., j`. -/
theorem generateLoop_rejects (run : Nat → String → Inputs → Except String RawOutput)
    (cfModel : String) (inputs : Inputs) (responseFormat : JsVal) (output : RawOutput)
    (message : String) :
    ∀ (j rounds i : Nat) (results : List DataEntry) (calls : List Call),
      j < rounds →
      (∀ k, k < j → ∃ earlier entry,
        run (i + k) cfModel (localInputs inputs (i + k)) = .ok earlier
        ∧ (imageDataOf cfModel earlier).bind (shapeResult responseFormat) = .ok entry) →
      run (i + j) cfModel (localInputs inputs (i + j)) = .ok output →
      (imageDataOf cfModel output).bind (shapeResult responseFormat) = .error message →
      generateLoop run cfModel inputs responseFormat rounds i results calls
        = (.error message, calls ++ batchCalls cfModel inputs i (j + 1)) := by
  intro j
  induction j with
  | zero =>
    intro rounds i results calls hj _ hrun hreject
    obtain ⟨rounds, rfl⟩ : ∃ r, rounds = r + 1 := ⟨rounds - 1, by omega⟩
    unfold generateLoop
    simp only [Nat.add_zero] at hrun
    simp [hrun, hreject, batchCalls]
  | succ j ih =>
    intro rounds i results calls hj hbefore hrun hreject
    obtain ⟨rounds, rfl⟩ : ∃ r, rounds = r + 1 := ⟨rounds - 1, by omega⟩
    obtain ⟨earlier, entry, hout, hentry⟩ := hbefore 0 (by omega)
    simp only [Nat.add_zero] at hout hentry
    unfold generateLoop
    simp only [hout, hentry]
    rw [ih rounds (i + 1) _ _ (by omega)]
    · simp only [batchCalls_succ _ _ i, List.append_assoc, List.singleton_append]
    · intro k hk
      have := hbefore (k + 1) (by omega)
      rwa [show i + (k + 1) = i + 1 + k by omega] at this
    · rwa [show i + (j + 1) = i + 1 + j by omega] at hrun
    · exact hreject

/-- C16.  In a request to the FLUX model that passed validation and whose
parameters parsed, when the rounds before round `j` go through and the
provider call of round `j` answers an object without `image`, the whole
request is answered with status 500, type `server_error`, code
`ai_service_error` and the message `Image generation failed: Invalid response
from FLUX model`, after the calls of the rounds `0, ..., j`.  And an `image`
that is a non-empty string is taken as the image data as it is: it is the
`b64_json` member, or follows the data URL head, unchanged. -/
theorem flux_image_required (env : Env) (authorization : Option String)
    (fields : List (String × JsVal)) (model : Model) (prompt : String) (params : Params)
    (j : Nat) (output : RawOutput)
    (hprompt : lookupField "prompt" fields = .str prompt) (hne : prompt ≠ "")
    (hmodel : model ∈ SUPPORTED_MODELS) (hid : lookupField "model" fields = .str model.id)
    (hflux : model.cf_model = "@cf/black-forest-labs/flux-1-schnell")
    (hparams : parseParams (.obj fields) model env.random = .ok params)
    (hj : j < loopRounds params.n)
    (hbefore : ∀ k, k < j → ∃ earlier entry,
      env.run k model.cf_model (localInputs params.inputs k) = .ok earlier
      ∧ (imageDataOf model.cf_model earlier).bind (shapeResult params.responseFormat) = .ok entry)
    (hrun : env.run j model.cf_model (localInputs params.inputs j) = .ok output)
    (himage : output.image = .undefined) :
    (fetch env (generationRequest authorization (.obj fields))
        = ⟨⟨500, .error "Image generation failed: Invalid response from FLUX model" "server_error"
            none (some "ai_service_error")⟩,
          batchCalls model.cf_model params.inputs 0 (j + 1)⟩)
    ∧ ∀ (response : RawOutput) (b : String) (f : JsVal), b ≠ "" → response.image = .str b →
        imageDataOf "@cf/black-forest-labs/flux-1-schnell" response = .ok (.str b)
        ∧ (imageDataOf "@cf/black-forest-labs/flux-1-schnell" response).bind
            (shapeResult (f.orElse (.str "url"))) = .ok (specEntry f b) := by
  constructor
  · rw [fetch_validated env authorization hprompt hne hmodel hid]
    have hreject : (imageDataOf model.cf_model output).bind (shapeResult params.responseFormat)
        = .error "Invalid response from FLUX model" := by
      simp [imageDataOf, hflux, himage, JsVal.truthy, Except.bind]
    have hloop := generateLoop_rejects env.run model.cf_model params.inputs params.responseFormat
      output "Invalid response from FLUX model" j (loopRounds params.n) 0 [] [] hj
      (by simpa using hbefore) (by simpa using hrun) hreject
    simp only [generate, hparams, hloop, List.nil_append]
    rfl
  · intro response b f hb himg
    have h : imageDataOf "@cf/black-forest-labs/flux-1-schnell" response = .ok (.str b) := by
      simp [imageDataOf, himg, JsVal.truthy, hb]
    exact ⟨h, by rw [h]; exact shapeResult_string f b⟩

/-- C16, at a request for three images from the FLUX model whose second provider
call answers an object without `image`, and at a response with the image
`QUJD`: the hypotheses hold there. -/
theorem flux_image_required_witness :
    fetch (imagelessEnv 1) (generationRequest none (.obj (sampleFields "flux-1-schnell"
        (.num (.int 3)) [])))
      = ⟨⟨500, .error "Image generation failed: Invalid response from FLUX model" "server_error"
          none (some "ai_service_error")⟩,
        batchCalls "@cf/black-forest-labs/flux-1-schnell" (.flux (.str "a cat") (.int 6)) 0 2⟩
    ∧ imageDataOf "@cf/black-forest-labs/flux-1-schnell" ⟨.str "QUJD", []⟩ = .ok (.str "QUJD")
    ∧ (imageDataOf "@cf/black-forest-labs/flux-1-schnell" ⟨.str "QUJD", []⟩).bind
        (shapeResult ((JsVal.str "b64_json").orElse (.str "url")))
        = .ok (specEntry (.str "b64_json") "QUJD") :=
  have h := flux_image_required (imagelessEnv 1) none
    (sampleFields "flux-1-schnell" (.num (.int 3)) [])
    fluxSchnell "a cat" ⟨.int 3, .str "url", .flux (.str "a cat") (.int 6)⟩ 1 ⟨.undefined, []⟩
    rfl (by decide) (by decide) rfl rfl rfl (by decide)
    (fun k hk => by
      obtain rfl : k = 0 := by omega
      exact ⟨_, _, rfl, rfl⟩)
    rfl rfl
  ⟨h.1, h.2 ⟨.str "QUJD", []⟩ "QUJD" (.str "b64_json") (by decide) rfl⟩

/-! ## Base64 -/

/-- The chunk loop copies the bytes: started at `i` with the first `i` bytes
collected and enough rounds left, it ends with all of them. -/
theorem chunkLoop_take (bytes : List Byte) :
    ∀ (rounds i : Nat), bytes.length ≤ i + rounds →
      chunkLoop bytes rounds i (bytes.take i) = bytes := by
  intro rounds
  induction rounds with
  | zero =>
    intro i h
    simp only [chunkLoop]
    exact List.take_of_length_le (by omega)
  | succ rounds ih =>
    intro i h
    unfold chunkLoop
    split
    · rw [← List.take_add]
      exact ih (i + 0x8000) (by omega)
    · exact List.take_of_length_le (by omega)

theorem bytesToBase64_whole (bytes : List Byte) :
    bytesToBase64 bytes = String.mk (btoaChars bytes) := by
  unfold bytesToBase64
  have h := chunkLoop_take bytes bytes.length 0 (by omega)
  rw [List.take_zero] at h
  rw [h]

theorem specQuantum_three (a b c : Byte) :
    specQuantum (bitsOfByte a ++ bitsOfByte b ++ bitsOfByte c)
      = [base64Char (a.val / 4), base64Char (a.val % 4 * 16 + b.val / 16),
          base64Char (b.val % 16 * 4 + c.val / 64), base64Char (c.val % 64)] := by
  have ha := a.isLt
  have hb := b.isLt
  have hc := c.isLt
  simp only [specQuantum, bitsOfByte, sixes, natOfBits, List.cons_append, List.nil_append,
    List.length_cons, List.length_nil, List.replicate, List.append_nil, List.map_cons,
    List.map_nil, List.foldl_cons, List.foldl_nil, List.cons.injEq, and_true]
  refine ⟨?_, ?_, ?_, ?_⟩ <;> congr 1 <;> omega

theorem specQuantum_two (a b : Byte) :
    specQuantum (bitsOfByte a ++ bitsOfByte b)
      = [base64Char (a.val / 4), base64Char (a.val % 4 * 16 + b.val / 16),
          base64Char (b.val % 16 * 4), '='] := by
  have ha := a.isLt
  have hb := b.isLt
  simp only [specQuantum, bitsOfByte, sixes, natOfBits, List.cons_append, List.nil_append,
    List.length_cons, List.length_nil, List.replicate, List.append_nil, List.map_cons,
    List.map_nil, List.foldl_cons, List.foldl_nil, List.cons.injEq, and_true]
  refine ⟨?_, ?_, ?_⟩ <;> congr 1 <;> omega

theorem specQuantum_one (a : Byte) :
    specQuantum (bitsOfByte a)
      = [base64Char (a.val / 4), base64Char (a.val % 4 * 16), '=', '='] := by
  have ha := a.isLt
  simp only [specQuantum, bitsOfByte, sixes, natOfBits, List.cons_append, List.nil_append,
    List.length_cons, List.length_nil, List.replicate, List.append_nil, List.map_cons,
    List.map_nil, List.foldl_cons, List.foldl_nil, List.cons.injEq, and_true]
  refine ⟨?_, ?_⟩ <;> congr 1 <;> omega

theorem btoaChars_eq_spec (bytes : List Byte) : btoaChars bytes = specBase64 bytes := by
  induction bytes using btoaChars.induct with
  | case1 a b c rest ih =>
    rw [btoaChars, specBase64, specQuantum_three, ih]
    rfl
  | case2 a b => rw [btoaChars, specBase64, specQuantum_two]
  | case3 a => rw [btoaChars, specBase64, specQuantum_one]
  | case4 => rfl

theorem btoaChars_length (bytes : List Byte) :
    (btoaChars bytes).length = 4 * ((bytes.length + 2) / 3) := by
  induction bytes using btoaChars.induct with
  | case1 a b c rest ih =>
    simp only [btoaChars, List.length_cons, ih]
    omega
  | case2 a b => simp [btoaChars]
  | case3 a => simp [btoaChars]
  | case4 => rfl

theorem base64Value_char : ∀ n : Fin 64, base64Value (base64Char n.val) = some n.val := by
  decide

theorem base64Char_ne_pad : ∀ n : Fin 64, base64Char n.val ≠ '=' := by
  decide

theorem base64Value_of_lt {n : Nat} (h : n < 64) : base64Value (base64Char n) = some n :=
  base64Value_char ⟨n, h⟩

theorem base64Char_ne_of_lt {n : Nat} (h : n < 64) : base64Char n ≠ '=' :=
  base64Char_ne_pad ⟨n, h⟩

theorem byte_ofNat {n : Nat} (a : Byte) (h : n = a.val) : (Fin.ofNat n : Byte) = a := by
  apply Fin.ext
  have := a.isLt
  simp only [Fin.ofNat, h]
  omega

theorem base64Decode_btoaChars (bytes : List Byte) :
    base64Decode (btoaChars bytes) = some bytes := by
  induction bytes using btoaChars.induct with
  | case1 a b c rest ih =>
    have ha := a.isLt
    have hb := b.isLt
    have hc := c.isLt
    rw [btoaChars, base64Decode]
    rw [if_neg (base64Char_ne_of_lt (by omega))]
    simp only [base64Value_of_lt (show a.val / 4 < 64 by omega),
      base64Value_of_lt (show a.val % 4 * 16 + b.val / 16 < 64 by omega),
      base64Value_of_lt (show b.val % 16 * 4 + c.val / 64 < 64 by omega),
      base64Value_of_lt (show c.val % 64 < 64 by omega), ih, Option.bind_eq_bind,
      Option.some_bind, Option.pure_def, Option.some.injEq, List.cons.injEq, and_true]
    exact ⟨byte_ofNat a (by omega), byte_ofNat b (by omega), byte_ofNat c (by omega)⟩
  | case2 a b =>
    have ha := a.isLt
    have hb := b.isLt
    rw [btoaChars, base64Decode]
    simp only [if_true, ne_eq, not_true_eq_false, if_false,
      if_neg (base64Char_ne_of_lt (show b.val % 16 * 4 < 64 by omega)),
      base64Value_of_lt (show a.val / 4 < 64 by omega),
      base64Value_of_lt (show a.val % 4 * 16 + b.val / 16 < 64 by omega),
      base64Value_of_lt (show b.val % 16 * 4 < 64 by omega), Option.bind_eq_bind,
      Option.some_bind, Option.pure_def, Option.some.injEq, List.cons.injEq, and_true]
    exact ⟨byte_ofNat a (by omega), byte_ofNat b (by omega)⟩
  | case3 a =>
    have ha := a.isLt
    rw [btoaChars, base64Decode]
    simp only [if_true, ne_eq, not_true_eq_false, if_false,
      base64Value_of_lt (show a.val / 4 < 64 by omega),
      base64Value_of_lt (show a.val % 4 * 16 < 64 by omega), Option.bind_eq_bind,
      Option.some_bind, Option.pure_def, Option.some.injEq, List.cons.injEq, and_true]
    exact byte_ofNat a (by omega)
  | case4 => rfl

/-- C19.  For every byte sequence, `bytesToBase64` gives the standard padded
base64 encoding (RFC 4648) of the bytes: going through the input in chunks of
`0x8000` bytes gives what `btoa` gives on the whole sequence, the output has
`4 * ceil(len / 3)` characters, and standard base64 decoding of the output
gives the bytes back. -/
theorem bytesToBase64_standard (bytes : List Byte) :
    bytesToBase64 bytes = String.mk (specBase64 bytes)
    ∧ bytesToBase64 bytes = String.mk (btoaChars bytes)
    ∧ (bytesToBase64 bytes).length = 4 * ((bytes.length + 2) / 3)
    ∧ base64Decode (bytesToBase64 bytes).data = some bytes := by
  rw [bytesToBase64_whole]
  exact ⟨by rw [btoaChars_eq_spec], rfl, btoaChars_length bytes, base64Decode_btoaChars bytes⟩

end Worker
